import Mathlib

/-!
Verification development for the `truelayer-rust` payments data model
(`src/apis/payments/model.rs`).

The Rust types are shallowly embedded as Lean structures and inductives.
The serde `Serialize`/`Deserialize` derives are embedded as explicit
`toJson_*` / `fromJson_*` functions over a JSON value type, following the
serde attributes used in the source (`tag = "status"` / `tag = "type"`
internally-tagged unions, `rename_all = "snake_case"` / `"UPPERCASE"`,
`untagged`, `flatten`, `default`, and the implicit-`None`-for-missing rule
for `Option` fields; unknown fields are ignored, `None` serializes to
`null`).
-/

/-- JSON values. Objects are association lists in serialization order. -/
inductive Json where
  | null : Json
  | bool : Bool → Json
  | num : Int → Json
  | str : String → Json
  | arr : List Json → Json
  | obj : List (String × Json) → Json

/-- First binding of a key in an association list (serde maps reject
duplicate keys, so on well-formed payloads this is the only binding). -/
def assocFind (kvs : List (String × Json)) (key : String) : Option Json :=
  match kvs with
  | [] => none
  | (k, v) :: rest => if k = key then some v else assocFind rest key

def asObj : Json → Option (List (String × Json))
  | .obj kvs => some kvs
  | _ => none

def asStr : Json → Option String
  | .str s => some s
  | _ => none

def asBool : Json → Option Bool
  | .bool b => some b
  | _ => none

def asInt : Json → Option Int
  | .num n => some n
  | _ => none

/-- `Option<T>` deserialization: `null` is `None`, otherwise the inner
deserializer runs. -/
def deOpt (de : Json → Option α) : Json → Option (Option α)
  | .null => some none
  | j => (de j).map some

/-- A required struct field: missing or undecodable fails. -/
def reqField (kvs : List (String × Json)) (name : String) (de : Json → Option α) :
    Option α :=
  match assocFind kvs name with
  | none => none
  | some j => de j

/-- An `Option<T>` struct field: serde defaults a missing field to `None`. -/
def optField (kvs : List (String × Json)) (name : String) (de : Json → Option α) :
    Option (Option α) :=
  match assocFind kvs name with
  | none => some none
  | some j => deOpt de j

/-- A `#[serde(default)]` struct field: missing yields the default value. -/
def defField (kvs : List (String × Json)) (name : String) (de : Json → Option α)
    (dflt : α) : Option α :=
  match assocFind kvs name with
  | none => some dflt
  | some j => de j

/-- Element-wise list deserialization; any failing element fails the list. -/
def deElems (de : Json → Option α) : List Json → Option (List α)
  | [] => some []
  | j :: js => do
      let a ← de j
      let as ← deElems de js
      pure (a :: as)

/-- `Vec<T>` deserialization: requires a JSON array. -/
def deList (de : Json → Option α) : Json → Option (List α)
  | .arr js => deElems de js
  | _ => none

/-- `Option<T>` serialization: `None` becomes `null`. -/
def serOpt (ser : α → Json) : Option α → Json
  | none => .null
  | some a => ser a

/-- `Vec<T>` serialization. -/
def serList (ser : α → Json) (xs : List α) : Json :=
  .arr (xs.map ser)

/-! Basic inversion and round-trip lemmas for the combinators. -/

/-- `chrono::DateTime<Utc>` is external to the repository; it is embedded
abstractly as its RFC 3339 wire rendering, which chrono round-trips. -/
structure DateTimeUtc where
  rfc3339 : String
deriving DecidableEq, Repr

def toJson_DateTimeUtc (d : DateTimeUtc) : Json :=
  .str d.rfc3339

def fromJson_DateTimeUtc (j : Json) : Option DateTimeUtc :=
  (asStr j).map DateTimeUtc.mk

/-- `Currency`, serde `rename_all = "UPPERCASE"`. -/
inductive Currency where
  | Gbp
  | Eur
deriving DecidableEq, Repr

/-- The `Display` impl for `Currency`. -/
def Currency.display : Currency → String
  | .Gbp => "GBP"
  | .Eur => "EUR"

def toJson_Currency : Currency → Json
  | .Gbp => .str "GBP"
  | .Eur => .str "EUR"

def fromJson_Currency (j : Json) : Option Currency := do
  let s ← asStr j
  if s = "GBP" then pure .Gbp
  else if s = "EUR" then pure .Eur
  else none

/-- `CountryCode`, serde `rename_all = "UPPERCASE"`. -/
inductive CountryCode where
  | DE | ES | FR | GB | IE | IT | LT | NL | PL | PT
deriving DecidableEq, Repr

def toJson_CountryCode : CountryCode → Json
  | .DE => .str "DE"
  | .ES => .str "ES"
  | .FR => .str "FR"
  | .GB => .str "GB"
  | .IE => .str "IE"
  | .IT => .str "IT"
  | .LT => .str "LT"
  | .NL => .str "NL"
  | .PL => .str "PL"
  | .PT => .str "PT"

def fromJson_CountryCode (j : Json) : Option CountryCode := do
  let s ← asStr j
  if s = "DE" then pure .DE
  else if s = "ES" then pure .ES
  else if s = "FR" then pure .FR
  else if s = "GB" then pure .GB
  else if s = "IE" then pure .IE
  else if s = "IT" then pure .IT
  else if s = "LT" then pure .LT
  else if s = "NL" then pure .NL
  else if s = "PL" then pure .PL
  else if s = "PT" then pure .PT
  else none

/-- `FailureStage`, serde `rename_all = "snake_case"`. -/
inductive FailureStage where
  | AuthorizationRequired
  | Authorizing
  | Authorized
deriving DecidableEq, Repr

def toJson_FailureStage : FailureStage → Json
  | .AuthorizationRequired => .str "authorization_required"
  | .Authorizing => .str "authorizing"
  | .Authorized => .str "authorized"

def fromJson_FailureStage (j : Json) : Option FailureStage := do
  let s ← asStr j
  if s = "authorization_required" then pure .AuthorizationRequired
  else if s = "authorizing" then pure .Authorizing
  else if s = "authorized" then pure .Authorized
  else none

/-- `ReleaseChannel`, serde `rename_all = "snake_case"`. -/
inductive ReleaseChannel where
  | GeneralAvailability
  | PublicBeta
  | PrivateBeta
deriving DecidableEq, Repr

def toJson_ReleaseChannel : ReleaseChannel → Json
  | .GeneralAvailability => .str "general_availability"
  | .PublicBeta => .str "public_beta"
  | .PrivateBeta => .str "private_beta"

def fromJson_ReleaseChannel (j : Json) : Option ReleaseChannel := do
  let s ← asStr j
  if s = "general_availability" then pure .GeneralAvailability
  else if s = "public_beta" then pure .PublicBeta
  else if s = "private_beta" then pure .PrivateBeta
  else none

/-- `CustomerSegment`, serde `rename_all = "snake_case"`. -/
inductive CustomerSegment where
  | Retail
  | Business
  | Corporate
deriving DecidableEq, Repr

def toJson_CustomerSegment : CustomerSegment → Json
  | .Retail => .str "retail"
  | .Business => .str "business"
  | .Corporate => .str "corporate"

def fromJson_CustomerSegment (j : Json) : Option CustomerSegment := do
  let s ← asStr j
  if s = "retail" then pure .Retail
  else if s = "business" then pure .Business
  else if s = "corporate" then pure .Corporate
  else none

/-- `AdditionalInputType`, serde `rename_all = "snake_case"`. -/
inductive AdditionalInputType where
  | Text
  | Select
  | TextWithImage
deriving DecidableEq, Repr

def toJson_AdditionalInputType : AdditionalInputType → Json
  | .Text => .str "text"
  | .Select => .str "select"
  | .TextWithImage => .str "text_with_image"

def fromJson_AdditionalInputType (j : Json) : Option AdditionalInputType := do
  let s ← asStr j
  if s = "text" then pure .Text
  else if s = "select" then pure .Select
  else if s = "text_with_image" then pure .TextWithImage
  else none

/-- `AdditionalInputFormat`, serde `rename_all = "snake_case"`. -/
inductive AdditionalInputFormat where
  | AccountNumber
  | Alphabetical
  | Alphanumerical
  | Any
  | Email
  | Iban
  | Numerical
  | SortCode
deriving DecidableEq, Repr

def toJson_AdditionalInputFormat : AdditionalInputFormat → Json
  | .AccountNumber => .str "account_number"
  | .Alphabetical => .str "alphabetical"
  | .Alphanumerical => .str "alphanumerical"
  | .Any => .str "any"
  | .Email => .str "email"
  | .Iban => .str "iban"
  | .Numerical => .str "numerical"
  | .SortCode => .str "sort_code"

def fromJson_AdditionalInputFormat (j : Json) : Option AdditionalInputFormat := do
  let s ← asStr j
  if s = "account_number" then pure .AccountNumber
  else if s = "alphabetical" then pure .Alphabetical
  else if s = "alphanumerical" then pure .Alphanumerical
  else if s = "any" then pure .Any
  else if s = "email" then pure .Email
  else if s = "iban" then pure .Iban
  else if s = "numerical" then pure .Numerical
  else if s = "sort_code" then pure .SortCode
  else none

/-- `AccountIdentifier`, serde internally tagged with `type`,
`rename_all = "snake_case"`. -/
inductive AccountIdentifier where
  | SortCodeAccountNumber (sort_code : String) (account_number : String)
  | Iban (iban : String)
  | Bban (bban : String)
  | Nrb (nrb : String)
deriving DecidableEq, Repr

def toJson_AccountIdentifier : AccountIdentifier → Json
  | .SortCodeAccountNumber sort_code account_number =>
      .obj [("type", .str "sort_code_account_number"),
            ("sort_code", .str sort_code),
            ("account_number", .str account_number)]
  | .Iban iban => .obj [("type", .str "iban"), ("iban", .str iban)]
  | .Bban bban => .obj [("type", .str "bban"), ("bban", .str bban)]
  | .Nrb nrb => .obj [("type", .str "nrb"), ("nrb", .str nrb)]

def fromJson_AccountIdentifier (j : Json) : Option AccountIdentifier := do
  let kvs ← asObj j
  let tag ← reqField kvs "type" asStr
  if tag = "sort_code_account_number" then
    let sort_code ← reqField kvs "sort_code" asStr
    let account_number ← reqField kvs "account_number" asStr
    pure (.SortCodeAccountNumber sort_code account_number)
  else if tag = "iban" then
    let iban ← reqField kvs "iban" asStr
    pure (.Iban iban)
  else if tag = "bban" then
    let bban ← reqField kvs "bban" asStr
    pure (.Bban bban)
  else if tag = "nrb" then
    let nrb ← reqField kvs "nrb" asStr
    pure (.Nrb nrb)
  else none

/-- `SettlementRisk`. -/
structure SettlementRisk where
  category : String
deriving DecidableEq, Repr

def toJson_SettlementRisk (s : SettlementRisk) : Json :=
  .obj [("category", .str s.category)]

def fromJson_SettlementRisk (j : Json) : Option SettlementRisk := do
  let kvs ← asObj j
  let category ← reqField kvs "category" asStr
  pure ⟨category⟩

/-- `Remitter`. -/
structure Remitter where
  account_holder_name : Option String
  account_identifier : Option AccountIdentifier
deriving DecidableEq, Repr

def toJson_Remitter (r : Remitter) : Json :=
  .obj [("account_holder_name", serOpt Json.str r.account_holder_name),
        ("account_identifier", serOpt toJson_AccountIdentifier r.account_identifier)]

def fromJson_Remitter (j : Json) : Option Remitter := do
  let kvs ← asObj j
  let account_holder_name ← optField kvs "account_holder_name" asStr
  let account_identifier ← optField kvs "account_identifier" fromJson_AccountIdentifier
  pure ⟨account_holder_name, account_identifier⟩

/-- `ProviderFilterExcludes`. -/
structure ProviderFilterExcludes where
  provider_ids : Option (List String)
deriving DecidableEq, Repr

def toJson_ProviderFilterExcludes (e : ProviderFilterExcludes) : Json :=
  .obj [("provider_ids", serOpt (serList Json.str) e.provider_ids)]

def fromJson_ProviderFilterExcludes (j : Json) : Option ProviderFilterExcludes := do
  let kvs ← asObj j
  let provider_ids ← optField kvs "provider_ids" (deList asStr)
  pure ⟨provider_ids⟩

/-- `ProviderFilter`. -/
structure ProviderFilter where
  countries : Option (List CountryCode)
  release_channel : Option ReleaseChannel
  customer_segments : Option (List CustomerSegment)
  provider_ids : Option (List String)
  excludes : Option ProviderFilterExcludes
deriving DecidableEq, Repr

def toJson_ProviderFilter (f : ProviderFilter) : Json :=
  .obj [("countries", serOpt (serList toJson_CountryCode) f.countries),
        ("release_channel", serOpt toJson_ReleaseChannel f.release_channel),
        ("customer_segments", serOpt (serList toJson_CustomerSegment) f.customer_segments),
        ("provider_ids", serOpt (serList Json.str) f.provider_ids),
        ("excludes", serOpt toJson_ProviderFilterExcludes f.excludes)]

def fromJson_ProviderFilter (j : Json) : Option ProviderFilter := do
  let kvs ← asObj j
  let countries ← optField kvs "countries" (deList fromJson_CountryCode)
  let release_channel ← optField kvs "release_channel" fromJson_ReleaseChannel
  let customer_segments ← optField kvs "customer_segments" (deList fromJson_CustomerSegment)
  let provider_ids ← optField kvs "provider_ids" (deList asStr)
  let excludes ← optField kvs "excludes" fromJson_ProviderFilterExcludes
  pure ⟨countries, release_channel, customer_segments, provider_ids, excludes⟩

/-- `ProviderSelection`, serde internally tagged with `type`,
`rename_all = "snake_case"`. -/
inductive ProviderSelection where
  | UserSelected (filter : Option ProviderFilter)
      (preferred_scheme_ids : Option (List String))
  | Preselected (provider_id : String) (scheme_id : String)
      (remitter : Option Remitter)
deriving DecidableEq, Repr

def toJson_ProviderSelection : ProviderSelection → Json
  | .UserSelected filter preferred_scheme_ids =>
      .obj [("type", .str "user_selected"),
            ("filter", serOpt toJson_ProviderFilter filter),
            ("preferred_scheme_ids", serOpt (serList Json.str) preferred_scheme_ids)]
  | .Preselected provider_id scheme_id remitter =>
      .obj [("type", .str "preselected"),
            ("provider_id", .str provider_id),
            ("scheme_id", .str scheme_id),
            ("remitter", serOpt toJson_Remitter remitter)]

def fromJson_ProviderSelection (j : Json) : Option ProviderSelection := do
  let kvs ← asObj j
  let tag ← reqField kvs "type" asStr
  if tag = "user_selected" then
    let filter ← optField kvs "filter" fromJson_ProviderFilter
    let preferred_scheme_ids ← optField kvs "preferred_scheme_ids" (deList asStr)
    pure (.UserSelected filter preferred_scheme_ids)
  else if tag = "preselected" then
    let provider_id ← reqField kvs "provider_id" asStr
    let scheme_id ← reqField kvs "scheme_id" asStr
    let remitter ← optField kvs "remitter" fromJson_Remitter
    pure (.Preselected provider_id scheme_id remitter)
  else none

/-- `Beneficiary`, serde internally tagged with `type`,
`rename_all = "snake_case"`. -/
inductive Beneficiary where
  | MerchantAccount (merchant_account_id : String)
      (account_holder_name : Option String)
  | ExternalAccount (account_holder_name : String)
      (account_identifier : AccountIdentifier) (reference : String)
deriving DecidableEq, Repr

def toJson_Beneficiary : Beneficiary → Json
  | .MerchantAccount merchant_account_id account_holder_name =>
      .obj [("type", .str "merchant_account"),
            ("merchant_account_id", .str merchant_account_id),
            ("account_holder_name", serOpt Json.str account_holder_name)]
  | .ExternalAccount account_holder_name account_identifier reference =>
      .obj [("type", .str "external_account"),
            ("account_holder_name", .str account_holder_name),
            ("account_identifier", toJson_AccountIdentifier account_identifier),
            ("reference", .str reference)]

def fromJson_Beneficiary (j : Json) : Option Beneficiary := do
  let kvs ← asObj j
  let tag ← reqField kvs "type" asStr
  if tag = "merchant_account" then
    let merchant_account_id ← reqField kvs "merchant_account_id" asStr
    let account_holder_name ← optField kvs "account_holder_name" asStr
    pure (.MerchantAccount merchant_account_id account_holder_name)
  else if tag = "external_account" then
    let account_holder_name ← reqField kvs "account_holder_name" asStr
    let account_identifier ← reqField kvs "account_identifier" fromJson_AccountIdentifier
    let reference ← reqField kvs "reference" asStr
    pure (.ExternalAccount account_holder_name account_identifier reference)
  else none

/-- `PaymentMethod`, serde internally tagged with `type`,
`rename_all = "snake_case"`. -/
inductive PaymentMethod where
  | BankTransfer (provider_selection : ProviderSelection)
      (beneficiary : Beneficiary)
deriving DecidableEq, Repr

def toJson_PaymentMethod : PaymentMethod → Json
  | .BankTransfer provider_selection beneficiary =>
      .obj [("type", .str "bank_transfer"),
            ("provider_selection", toJson_ProviderSelection provider_selection),
            ("beneficiary", toJson_Beneficiary beneficiary)]

def fromJson_PaymentMethod (j : Json) : Option PaymentMethod := do
  let kvs ← asObj j
  let tag ← reqField kvs "type" asStr
  if tag = "bank_transfer" then
    let provider_selection ← reqField kvs "provider_selection" fromJson_ProviderSelection
    let beneficiary ← reqField kvs "beneficiary" fromJson_Beneficiary
    pure (.BankTransfer provider_selection beneficiary)
  else none

/-- `PaymentSource`; `account_identifiers` is `#[serde(default)]`. -/
structure PaymentSource where
  id : String
  user_id : Option String
  account_identifiers : List AccountIdentifier
  account_holder_name : Option String
deriving DecidableEq, Repr

def toJson_PaymentSource (s : PaymentSource) : Json :=
  .obj [("id", .str s.id),
        ("user_id", serOpt Json.str s.user_id),
        ("account_identifiers", serList toJson_AccountIdentifier s.account_identifiers),
        ("account_holder_name", serOpt Json.str s.account_holder_name)]

def fromJson_PaymentSource (j : Json) : Option PaymentSource := do
  let kvs ← asObj j
  let id ← reqField kvs "id" asStr
  let user_id ← optField kvs "user_id" asStr
  let account_identifiers ←
    defField kvs "account_identifiers" (deList fromJson_AccountIdentifier) []
  let account_holder_name ← optField kvs "account_holder_name" asStr
  pure ⟨id, user_id, account_identifiers, account_holder_name⟩

/-- `Provider`. -/
structure Provider where
  id : String
  display_name : Option String
  icon_uri : Option String
  logo_uri : Option String
  bg_color : Option String
  country_code : Option CountryCode
deriving DecidableEq, Repr

def toJson_Provider (p : Provider) : Json :=
  .obj [("id", .str p.id),
        ("display_name", serOpt Json.str p.display_name),
        ("icon_uri", serOpt Json.str p.icon_uri),
        ("logo_uri", serOpt Json.str p.logo_uri),
        ("bg_color", serOpt Json.str p.bg_color),
        ("country_code", serOpt toJson_CountryCode p.country_code)]

def fromJson_Provider (j : Json) : Option Provider := do
  let kvs ← asObj j
  let id ← reqField kvs "id" asStr
  let display_name ← optField kvs "display_name" asStr
  let icon_uri ← optField kvs "icon_uri" asStr
  let logo_uri ← optField kvs "logo_uri" asStr
  let bg_color ← optField kvs "bg_color" asStr
  let country_code ← optField kvs "country_code" fromJson_CountryCode
  pure ⟨id, display_name, icon_uri, logo_uri, bg_color, country_code⟩

/-- `RedirectActionMetadata`, serde internally tagged with `type`,
`rename_all = "snake_case"`; the `Provider` newtype variant flattens the
provider fields beside the tag. -/
inductive RedirectActionMetadata where
  | Provider (provider : Provider)
deriving DecidableEq, Repr

def toJson_RedirectActionMetadata : RedirectActionMetadata → Json
  | .Provider p =>
      .obj (("type", .str "provider") ::
        [("id", .str p.id),
         ("display_name", serOpt Json.str p.display_name),
         ("icon_uri", serOpt Json.str p.icon_uri),
         ("logo_uri", serOpt Json.str p.logo_uri),
         ("bg_color", serOpt Json.str p.bg_color),
         ("country_code", serOpt toJson_CountryCode p.country_code)])

def fromJson_RedirectActionMetadata (j : Json) : Option RedirectActionMetadata := do
  let kvs ← asObj j
  let tag ← reqField kvs "type" asStr
  if tag = "provider" then
    let p ← fromJson_Provider (.obj kvs)
    pure (.Provider p)
  else none

/-- `AdditionalInputDisplayText`. -/
structure AdditionalInputDisplayText where
  key : String
  default : String
deriving DecidableEq, Repr

def toJson_AdditionalInputDisplayText (t : AdditionalInputDisplayText) : Json :=
  .obj [("key", .str t.key), ("default", .str t.default)]

def fromJson_AdditionalInputDisplayText (j : Json) :
    Option AdditionalInputDisplayText := do
  let kvs ← asObj j
  let key ← reqField kvs "key" asStr
  let dflt ← reqField kvs "default" asStr
  pure ⟨key, dflt⟩

/-- `AdditionalInputRegex`. -/
structure AdditionalInputRegex where
  regex : String
  message : AdditionalInputDisplayText
deriving DecidableEq, Repr

def toJson_AdditionalInputRegex (r : AdditionalInputRegex) : Json :=
  .obj [("regex", .str r.regex),
        ("message", toJson_AdditionalInputDisplayText r.message)]

def fromJson_AdditionalInputRegex (j : Json) : Option AdditionalInputRegex := do
  let kvs ← asObj j
  let regex ← reqField kvs "regex" asStr
  let message ← reqField kvs "message" fromJson_AdditionalInputDisplayText
  pure ⟨regex, message⟩

/-- `AdditionalInputOption`. -/
structure AdditionalInputOption where
  id : String
  display_text : AdditionalInputDisplayText
deriving DecidableEq, Repr

def toJson_AdditionalInputOption (o : AdditionalInputOption) : Json :=
  .obj [("id", .str o.id),
        ("display_text", toJson_AdditionalInputDisplayText o.display_text)]

def fromJson_AdditionalInputOption (j : Json) : Option AdditionalInputOption := do
  let kvs ← asObj j
  let id ← reqField kvs "id" asStr
  let display_text ← reqField kvs "display_text" fromJson_AdditionalInputDisplayText
  pure ⟨id, display_text⟩

/-- `AdditionalInputImage`, serde internally tagged with `type`,
`rename_all = "snake_case"`. -/
inductive AdditionalInputImage where
  | Uri (uri : String)
  | Base64 (data : String) (media_type : String)
deriving DecidableEq, Repr

def toJson_AdditionalInputImage : AdditionalInputImage → Json
  | .Uri uri => .obj [("type", .str "uri"), ("uri", .str uri)]
  | .Base64 data media_type =>
      .obj [("type", .str "base64"), ("data", .str data),
            ("media_type", .str media_type)]

def fromJson_AdditionalInputImage (j : Json) : Option AdditionalInputImage := do
  let kvs ← asObj j
  let tag ← reqField kvs "type" asStr
  if tag = "uri" then
    let uri ← reqField kvs "uri" asStr
    pure (.Uri uri)
  else if tag = "base64" then
    let data ← reqField kvs "data" asStr
    let media_type ← reqField kvs "media_type" asStr
    pure (.Base64 data media_type)
  else none

/-- `AdditionalInput`, serde internally tagged with `type`,
`rename_all = "snake_case"`; `min_length`/`max_length` are `i32`. -/
inductive AdditionalInput where
  | Text (id : String) (mandatory : Bool)
      (display_text : AdditionalInputDisplayText)
      (description : Option AdditionalInputDisplayText)
      (format : AdditionalInputFormat) (sensitive : Bool)
      (min_length : Int) (max_length : Int)
      (regexes : List AdditionalInputRegex)
  | Select (id : String) (mandatory : Bool)
      (display_text : AdditionalInputDisplayText)
      (description : Option AdditionalInputDisplayText)
      (options : List AdditionalInputOption)
  | TextWithImage (id : String) (mandatory : Bool)
      (display_text : AdditionalInputDisplayText)
      (description : Option AdditionalInputDisplayText)
      (format : AdditionalInputFormat) (sensitive : Bool)
      (min_length : Int) (max_length : Int)
      (regexes : List AdditionalInputRegex)
      (image : AdditionalInputImage)
deriving DecidableEq, Repr

def toJson_AdditionalInput : AdditionalInput → Json
  | .Text id mandatory display_text description format sensitive min_length
      max_length regexes =>
      .obj [("type", .str "text"),
            ("id", .str id),
            ("mandatory", .bool mandatory),
            ("display_text", toJson_AdditionalInputDisplayText display_text),
            ("description", serOpt toJson_AdditionalInputDisplayText description),
            ("format", toJson_AdditionalInputFormat format),
            ("sensitive", .bool sensitive),
            ("min_length", .num min_length),
            ("max_length", .num max_length),
            ("regexes", serList toJson_AdditionalInputRegex regexes)]
  | .Select id mandatory display_text description options =>
      .obj [("type", .str "select"),
            ("id", .str id),
            ("mandatory", .bool mandatory),
            ("display_text", toJson_AdditionalInputDisplayText display_text),
            ("description", serOpt toJson_AdditionalInputDisplayText description),
            ("options", serList toJson_AdditionalInputOption options)]
  | .TextWithImage id mandatory display_text description format sensitive
      min_length max_length regexes image =>
      .obj [("type", .str "text_with_image"),
            ("id", .str id),
            ("mandatory", .bool mandatory),
            ("display_text", toJson_AdditionalInputDisplayText display_text),
            ("description", serOpt toJson_AdditionalInputDisplayText description),
            ("format", toJson_AdditionalInputFormat format),
            ("sensitive", .bool sensitive),
            ("min_length", .num min_length),
            ("max_length", .num max_length),
            ("regexes", serList toJson_AdditionalInputRegex regexes),
            ("image", toJson_AdditionalInputImage image)]

def fromJson_AdditionalInput (j : Json) : Option AdditionalInput := do
  let kvs ← asObj j
  let tag ← reqField kvs "type" asStr
  if tag = "text" then
    let id ← reqField kvs "id" asStr
    let mandatory ← reqField kvs "mandatory" asBool
    let display_text ← reqField kvs "display_text" fromJson_AdditionalInputDisplayText
    let description ← optField kvs "description" fromJson_AdditionalInputDisplayText
    let format ← reqField kvs "format" fromJson_AdditionalInputFormat
    let sensitive ← reqField kvs "sensitive" asBool
    let min_length ← reqField kvs "min_length" asInt
    let max_length ← reqField kvs "max_length" asInt
    let regexes ← reqField kvs "regexes" (deList fromJson_AdditionalInputRegex)
    pure (.Text id mandatory display_text description format sensitive min_length
      max_length regexes)
  else if tag = "select" then
    let id ← reqField kvs "id" asStr
    let mandatory ← reqField kvs "mandatory" asBool
    let display_text ← reqField kvs "display_text" fromJson_AdditionalInputDisplayText
    let description ← optField kvs "description" fromJson_AdditionalInputDisplayText
    let options ← reqField kvs "options" (deList fromJson_AdditionalInputOption)
    pure (.Select id mandatory display_text description options)
  else if tag = "text_with_image" then
    let id ← reqField kvs "id" asStr
    let mandatory ← reqField kvs "mandatory" asBool
    let display_text ← reqField kvs "display_text" fromJson_AdditionalInputDisplayText
    let description ← optField kvs "description" fromJson_AdditionalInputDisplayText
    let format ← reqField kvs "format" fromJson_AdditionalInputFormat
    let sensitive ← reqField kvs "sensitive" asBool
    let min_length ← reqField kvs "min_length" asInt
    let max_length ← reqField kvs "max_length" asInt
    let regexes ← reqField kvs "regexes" (deList fromJson_AdditionalInputRegex)
    let image ← reqField kvs "image" fromJson_AdditionalInputImage
    pure (.TextWithImage id mandatory display_text description format sensitive
      min_length max_length regexes image)
  else none

/-- `AuthorizationFlowNextAction`, serde internally tagged with `type`,
`rename_all = "snake_case"`. -/
inductive AuthorizationFlowNextAction where
  | ProviderSelection (providers : List Provider)
  | Redirect (uri : String) (metadata : Option RedirectActionMetadata)
  | Form (inputs : List AdditionalInput)
  | Wait
deriving DecidableEq, Repr

def toJson_AuthorizationFlowNextAction : AuthorizationFlowNextAction → Json
  | .ProviderSelection providers =>
      .obj [("type", .str "provider_selection"),
            ("providers", serList toJson_Provider providers)]
  | .Redirect uri metadata =>
      .obj [("type", .str "redirect"),
            ("uri", .str uri),
            ("metadata", serOpt toJson_RedirectActionMetadata metadata)]
  | .Form inputs =>
      .obj [("type", .str "form"),
            ("inputs", serList toJson_AdditionalInput inputs)]
  | .Wait => .obj [("type", .str "wait")]

def fromJson_AuthorizationFlowNextAction (j : Json) :
    Option AuthorizationFlowNextAction := do
  let kvs ← asObj j
  let tag ← reqField kvs "type" asStr
  if tag = "provider_selection" then
    let providers ← reqField kvs "providers" (deList fromJson_Provider)
    pure (.ProviderSelection providers)
  else if tag = "redirect" then
    let uri ← reqField kvs "uri" asStr
    let metadata ← optField kvs "metadata" fromJson_RedirectActionMetadata
    pure (.Redirect uri metadata)
  else if tag = "form" then
    let inputs ← reqField kvs "inputs" (deList fromJson_AdditionalInput)
    pure (.Form inputs)
  else if tag = "wait" then
    pure .Wait
  else none

/-- `AuthorizationFlowActions`. -/
structure AuthorizationFlowActions where
  next : AuthorizationFlowNextAction
deriving DecidableEq, Repr

def toJson_AuthorizationFlowActions (a : AuthorizationFlowActions) : Json :=
  .obj [("next", toJson_AuthorizationFlowNextAction a.next)]

def fromJson_AuthorizationFlowActions (j : Json) :
    Option AuthorizationFlowActions := do
  let kvs ← asObj j
  let next ← reqField kvs "next" fromJson_AuthorizationFlowNextAction
  pure ⟨next⟩

/-- `ProviderSelectionSupported` (empty struct). -/
structure ProviderSelectionSupported where
deriving DecidableEq, Repr

def toJson_ProviderSelectionSupported (_ : ProviderSelectionSupported) : Json :=
  .obj []

def fromJson_ProviderSelectionSupported (j : Json) :
    Option ProviderSelectionSupported := do
  let _ ← asObj j
  pure ⟨⟩

/-- `RedirectSupported`. -/
structure RedirectSupported where
  return_uri : String
  direct_return_uri : Option String
deriving DecidableEq, Repr

def toJson_RedirectSupported (r : RedirectSupported) : Json :=
  .obj [("return_uri", .str r.return_uri),
        ("direct_return_uri", serOpt Json.str r.direct_return_uri)]

def fromJson_RedirectSupported (j : Json) : Option RedirectSupported := do
  let kvs ← asObj j
  let return_uri ← reqField kvs "return_uri" asStr
  let direct_return_uri ← optField kvs "direct_return_uri" asStr
  pure ⟨return_uri, direct_return_uri⟩

/-- `FormSupported`. -/
structure FormSupported where
  input_types : List AdditionalInputType
deriving DecidableEq, Repr

def toJson_FormSupported (f : FormSupported) : Json :=
  .obj [("input_types", serList toJson_AdditionalInputType f.input_types)]

def fromJson_FormSupported (j : Json) : Option FormSupported := do
  let kvs ← asObj j
  let input_types ← reqField kvs "input_types" (deList fromJson_AdditionalInputType)
  pure ⟨input_types⟩

/-- `AuthorizationFlowConfiguration`. -/
structure AuthorizationFlowConfiguration where
  provider_selection : Option ProviderSelectionSupported
  redirect : Option RedirectSupported
  form : Option FormSupported
deriving DecidableEq, Repr

def toJson_AuthorizationFlowConfiguration
    (c : AuthorizationFlowConfiguration) : Json :=
  .obj [("provider_selection",
          serOpt toJson_ProviderSelectionSupported c.provider_selection),
        ("redirect", serOpt toJson_RedirectSupported c.redirect),
        ("form", serOpt toJson_FormSupported c.form)]

def fromJson_AuthorizationFlowConfiguration (j : Json) :
    Option AuthorizationFlowConfiguration := do
  let kvs ← asObj j
  let provider_selection ←
    optField kvs "provider_selection" fromJson_ProviderSelectionSupported
  let redirect ← optField kvs "redirect" fromJson_RedirectSupported
  let form ← optField kvs "form" fromJson_FormSupported
  pure ⟨provider_selection, redirect, form⟩

/-- `AuthorizationFlow`. -/
structure AuthorizationFlow where
  actions : Option AuthorizationFlowActions
  configuration : Option AuthorizationFlowConfiguration
deriving DecidableEq, Repr

def toJson_AuthorizationFlow (f : AuthorizationFlow) : Json :=
  .obj [("actions", serOpt toJson_AuthorizationFlowActions f.actions),
        ("configuration",
          serOpt toJson_AuthorizationFlowConfiguration f.configuration)]

def fromJson_AuthorizationFlow (j : Json) : Option AuthorizationFlow := do
  let kvs ← asObj j
  let actions ← optField kvs "actions" fromJson_AuthorizationFlowActions
  let configuration ← optField kvs "configuration" fromJson_AuthorizationFlowConfiguration
  pure ⟨actions, configuration⟩

/-- `PaymentStatus`, serde internally tagged with `status`,
`rename_all = "snake_case"`. -/
inductive PaymentStatus where
  | AuthorizationRequired
  | Authorizing (authorization_flow : AuthorizationFlow)
  | Authorized (authorization_flow : Option AuthorizationFlow)
  | Executed (executed_at : DateTimeUtc)
      (authorization_flow : Option AuthorizationFlow)
      (settlement_risk : Option SettlementRisk)
  | Settled (payment_source : PaymentSource) (executed_at : DateTimeUtc)
      (settled_at : DateTimeUtc)
      (authorization_flow : Option AuthorizationFlow)
      (settlement_risk : Option SettlementRisk)
  | Failed (failed_at : DateTimeUtc) (failure_stage : FailureStage)
      (failure_reason : String)
      (authorization_flow : Option AuthorizationFlow)
deriving DecidableEq, Repr

/-- The wire value of the `status` discriminator for each variant. -/
def PaymentStatus.statusTag : PaymentStatus → String
  | .AuthorizationRequired => "authorization_required"
  | .Authorizing _ => "authorizing"
  | .Authorized _ => "authorized"
  | .Executed _ _ _ => "executed"
  | .Settled _ _ _ _ _ => "settled"
  | .Failed _ _ _ _ => "failed"

/-- The field list of the serialized `PaymentStatus` (the internally-tagged
representation always yields an object: tag first, then variant fields). -/
def paymentStatusFields : PaymentStatus → List (String × Json)
  | .AuthorizationRequired => [("status", .str "authorization_required")]
  | .Authorizing authorization_flow =>
      [("status", .str "authorizing"),
       ("authorization_flow", toJson_AuthorizationFlow authorization_flow)]
  | .Authorized authorization_flow =>
      [("status", .str "authorized"),
       ("authorization_flow", serOpt toJson_AuthorizationFlow authorization_flow)]
  | .Executed executed_at authorization_flow settlement_risk =>
      [("status", .str "executed"),
       ("executed_at", toJson_DateTimeUtc executed_at),
       ("authorization_flow", serOpt toJson_AuthorizationFlow authorization_flow),
       ("settlement_risk", serOpt toJson_SettlementRisk settlement_risk)]
  | .Settled payment_source executed_at settled_at authorization_flow
      settlement_risk =>
      [("status", .str "settled"),
       ("payment_source", toJson_PaymentSource payment_source),
       ("executed_at", toJson_DateTimeUtc executed_at),
       ("settled_at", toJson_DateTimeUtc settled_at),
       ("authorization_flow", serOpt toJson_AuthorizationFlow authorization_flow),
       ("settlement_risk", serOpt toJson_SettlementRisk settlement_risk)]
  | .Failed failed_at failure_stage failure_reason authorization_flow =>
      [("status", .str "failed"),
       ("failed_at", toJson_DateTimeUtc failed_at),
       ("failure_stage", toJson_FailureStage failure_stage),
       ("failure_reason", .str failure_reason),
       ("authorization_flow", serOpt toJson_AuthorizationFlow authorization_flow)]

def toJson_PaymentStatus (s : PaymentStatus) : Json :=
  .obj (paymentStatusFields s)

def fromJson_PaymentStatus (j : Json) : Option PaymentStatus := do
  let kvs ← asObj j
  let tag ← reqField kvs "status" asStr
  if tag = "authorization_required" then
    pure .AuthorizationRequired
  else if tag = "authorizing" then
    let authorization_flow ← reqField kvs "authorization_flow" fromJson_AuthorizationFlow
    pure (.Authorizing authorization_flow)
  else if tag = "authorized" then
    let authorization_flow ← optField kvs "authorization_flow" fromJson_AuthorizationFlow
    pure (.Authorized authorization_flow)
  else if tag = "executed" then
    let executed_at ← reqField kvs "executed_at" fromJson_DateTimeUtc
    let authorization_flow ← optField kvs "authorization_flow" fromJson_AuthorizationFlow
    let settlement_risk ← optField kvs "settlement_risk" fromJson_SettlementRisk
    pure (.Executed executed_at authorization_flow settlement_risk)
  else if tag = "settled" then
    let payment_source ← reqField kvs "payment_source" fromJson_PaymentSource
    let executed_at ← reqField kvs "executed_at" fromJson_DateTimeUtc
    let settled_at ← reqField kvs "settled_at" fromJson_DateTimeUtc
    let authorization_flow ← optField kvs "authorization_flow" fromJson_AuthorizationFlow
    let settlement_risk ← optField kvs "settlement_risk" fromJson_SettlementRisk
    pure (.Settled payment_source executed_at settled_at authorization_flow
      settlement_risk)
  else if tag = "failed" then
    let failed_at ← reqField kvs "failed_at" fromJson_DateTimeUtc
    let failure_stage ← reqField kvs "failure_stage" fromJson_FailureStage
    let failure_reason ← reqField kvs "failure_reason" asStr
    let authorization_flow ← optField kvs "authorization_flow" fromJson_AuthorizationFlow
    pure (.Failed failed_at failure_stage failure_reason authorization_flow)
  else none

/-- `User`. -/
structure User where
  id : String
  name : Option String
  email : Option String
  phone : Option String
deriving DecidableEq, Repr

def toJson_User (u : User) : Json :=
  .obj [("id", .str u.id),
        ("name", serOpt Json.str u.name),
        ("email", serOpt Json.str u.email),
        ("phone", serOpt Json.str u.phone)]

/-- `HashMap<String, String>` is embedded as an association list in
serialization order. -/
def serStringMap (m : List (String × String)) : Json :=
  .obj (m.map (fun kv => (kv.1, Json.str kv.2)))

/-- `Payment`; `amount_in_minor` is `u64`, `status` is `#[serde(flatten)]`. -/
structure Payment where
  id : String
  amount_in_minor : Nat
  currency : Currency
  user : User
  payment_method : PaymentMethod
  created_at : DateTimeUtc
  metadata : Option (List (String × String))
  status : PaymentStatus
deriving DecidableEq, Repr

/-- Serialization of `Payment`: the `#[serde(flatten)]` attribute merges the
serialized `status` fields into the payment object itself. -/
def toJson_Payment (p : Payment) : Json :=
  .obj ([("id", .str p.id),
         ("amount_in_minor", .num (p.amount_in_minor : Int)),
         ("currency", toJson_Currency p.currency),
         ("user", toJson_User p.user),
         ("payment_method", toJson_PaymentMethod p.payment_method),
         ("created_at", toJson_DateTimeUtc p.created_at),
         ("metadata", serOpt serStringMap p.metadata)] ++
        paymentStatusFields p.status)

/-- The `IsInTerminalState` impl for `Payment`: a payment is in a terminal
state iff its status is `Executed`, `Settled` or `Failed`. -/
def Payment.is_in_terminal_state (p : Payment) : Bool :=
  match p.status with
  | .Executed _ _ _ => true
  | .Settled _ _ _ _ _ => true
  | .Failed _ _ _ _ => true
  | _ => false

/-- `CreatePaymentUserRequest`, serde `untagged`: deserialization tries the
variants in declaration order (`ExistingUser` first, then `NewUser`) and
takes the first that succeeds. -/
inductive CreatePaymentUserRequest where
  | ExistingUser (id : String)
  | NewUser (name : Option String) (email : Option String)
      (phone : Option String)
deriving DecidableEq, Repr

def fromJson_ExistingUser (j : Json) : Option CreatePaymentUserRequest := do
  let kvs ← asObj j
  let id ← reqField kvs "id" asStr
  pure (.ExistingUser id)

def fromJson_NewUser (j : Json) : Option CreatePaymentUserRequest := do
  let kvs ← asObj j
  let name ← optField kvs "name" asStr
  let email ← optField kvs "email" asStr
  let phone ← optField kvs "phone" asStr
  pure (.NewUser name email phone)

def fromJson_CreatePaymentUserRequest (j : Json) :
    Option CreatePaymentUserRequest :=
  match fromJson_ExistingUser j with
  | some u => some u
  | none => fromJson_NewUser j

/-- `CreatePaymentUserResponse`. -/
structure CreatePaymentUserResponse where
  id : String
deriving DecidableEq, Repr

/-- Modelled from the spec: the auth `Token` type lives outside src/; the
spec only calls it a short-lived resource token carried by the creation
response, so it is embedded as an opaque token string. -/
structure Token where
  token : String
deriving DecidableEq, Repr

/-- `CreatePaymentResponse`. -/
structure CreatePaymentResponse where
  id : String
  resource_token : Token
  user : CreatePaymentUserResponse
deriving DecidableEq, Repr

/-- Modelled from the spec: the crate-level `Error` type lives outside src/.
The code under src/ constructs `Error::Other(anyhow!(..))`; the spec's §7
taxonomy additionally has transport errors, propagated unchanged. -/
inductive Error where
  | Other (message : String)
  | Transport (message : String)
deriving DecidableEq, Repr

/-- Modelled from the spec: the Polling Driver (outside src/) recovers
locally only the not-found-during-creation condition, which the code under
src/ surfaces as `Error::Other("Payment returned 404 while polling")`;
every other condition is surfaced to the caller verbatim. -/
def Error.isRetryable : Error → Bool
  | .Other message => message = "Payment returned 404 while polling"
  | .Transport _ => false

/-- `Result<Option<Payment>, Error>::transpose`. -/
def transposeResult : Except Error (Option Payment) → Option (Except Error Payment)
  | .ok none => none
  | .ok (some p) => some (.ok p)
  | .error e => some (.error e)

/-- `Pollable for CreatePaymentResponse`: fetch the payment by the id the
creation response carries; `get_by_id` stands for the transport fetch
`tl.payments.get_by_id`, whose `Ok(None)` (404) case is replaced by
`Err(Error::Other("Payment returned 404 while polling"))`. -/
def poll_once_CreatePaymentResponse
    (get_by_id : String → Except Error (Option Payment))
    (self : CreatePaymentResponse) : Except Error Payment :=
  (transposeResult (get_by_id self.id)).getD
    (.error (.Other "Payment returned 404 while polling"))

/-- `Pollable for Payment`: identical body, fetching by the payment's id. -/
def poll_once_Payment (get_by_id : String → Except Error (Option Payment))
    (self : Payment) : Except Error Payment :=
  (transposeResult (get_by_id self.id)).getD
    (.error (.Other "Payment returned 404 while polling"))

/-- `AuthorizationFlowResponseStatus`, serde internally tagged with
`status`, `rename_all = "snake_case"`. -/
inductive AuthorizationFlowResponseStatus where
  | Authorizing
  | Failed (failure_stage : FailureStage) (failure_reason : String)
deriving DecidableEq, Repr

/-- The wire value of the `status` discriminator for each variant. -/
def AuthorizationFlowResponseStatus.statusTag :
    AuthorizationFlowResponseStatus → String
  | .Authorizing => "authorizing"
  | .Failed _ _ => "failed"

/-- Field list of the serialized `AuthorizationFlowResponseStatus`, for
`#[serde(flatten)]` in the submission responses. -/
def authorizationFlowResponseStatusFields :
    AuthorizationFlowResponseStatus → List (String × Json)
  | .Authorizing => [("status", .str "authorizing")]
  | .Failed failure_stage failure_reason =>
      [("status", .str "failed"),
       ("failure_stage", toJson_FailureStage failure_stage),
       ("failure_reason", .str failure_reason)]

def toJson_AuthorizationFlowResponseStatus
    (s : AuthorizationFlowResponseStatus) : Json :=
  .obj (authorizationFlowResponseStatusFields s)

def fromJson_AuthorizationFlowResponseStatus (j : Json) :
    Option AuthorizationFlowResponseStatus := do
  let kvs ← asObj j
  let tag ← reqField kvs "status" asStr
  if tag = "authorizing" then
    pure .Authorizing
  else if tag = "failed" then
    let failure_stage ← reqField kvs "failure_stage" fromJson_FailureStage
    let failure_reason ← reqField kvs "failure_reason" asStr
    pure (.Failed failure_stage failure_reason)
  else none

/-- `StartAuthorizationFlowResponse`; `status` is `#[serde(flatten)]`. -/
structure StartAuthorizationFlowResponse where
  authorization_flow : Option AuthorizationFlow
  status : AuthorizationFlowResponseStatus
deriving DecidableEq, Repr

def toJson_StartAuthorizationFlowResponse
    (r : StartAuthorizationFlowResponse) : Json :=
  .obj ([("authorization_flow", serOpt toJson_AuthorizationFlow r.authorization_flow)] ++
        authorizationFlowResponseStatusFields r.status)

/-- `SubmitProviderSelectionActionResponse`; `status` is `#[serde(flatten)]`. -/
structure SubmitProviderSelectionActionResponse where
  authorization_flow : Option AuthorizationFlow
  status : AuthorizationFlowResponseStatus
deriving DecidableEq, Repr

def toJson_SubmitProviderSelectionActionResponse
    (r : SubmitProviderSelectionActionResponse) : Json :=
  .obj ([("authorization_flow", serOpt toJson_AuthorizationFlow r.authorization_flow)] ++
        authorizationFlowResponseStatusFields r.status)

/-- `SubmitFormActionResponse`; `status` is `#[serde(flatten)]`. -/
structure SubmitFormActionResponse where
  authorization_flow : Option AuthorizationFlow
  status : AuthorizationFlowResponseStatus
deriving DecidableEq, Repr

def toJson_SubmitFormActionResponse (r : SubmitFormActionResponse) : Json :=
  .obj ([("authorization_flow", serOpt toJson_AuthorizationFlow r.authorization_flow)] ++
        authorizationFlowResponseStatusFields r.status)

/-- Modelled from the spec: the Polling Driver (its source file is not under
src/). Algorithm per §4.5: fetch the current snapshot; if it is terminal,
stop and return it; else wait one interval and repeat. The transport is a
scripted sequence of snapshots; the driver consumes one scripted snapshot
per fetch and returns the first terminal snapshot together with the total
number of fetches performed, or `none` when the script is exhausted (the
driver's overall budget ran out). -/
def pollDriver : List Payment → Nat → Option (Payment × Nat)
  | [], _ => none
  | p :: rest, fetches =>
      if p.is_in_terminal_state then some (p, fetches + 1)
      else pollDriver rest (fetches + 1)

/-- The wire value of the `type` discriminator for each variant. -/
def AccountIdentifier.typeTag : AccountIdentifier → String
  | .SortCodeAccountNumber _ _ => "sort_code_account_number"
  | .Iban _ => "iban"
  | .Bban _ => "bban"
  | .Nrb _ => "nrb"

/-- The wire value of the `type` discriminator for each variant. -/
def Beneficiary.typeTag : Beneficiary → String
  | .MerchantAccount _ _ => "merchant_account"
  | .ExternalAccount _ _ _ => "external_account"

/-- The wire value of the `type` discriminator for each variant. -/
def ProviderSelection.typeTag : ProviderSelection → String
  | .UserSelected _ _ => "user_selected"
  | .Preselected _ _ _ => "preselected"

/-- The wire value of the `type` discriminator for each variant. -/
def PaymentMethod.typeTag : PaymentMethod → String
  | .BankTransfer _ _ => "bank_transfer"

/-- The wire value of the `type` discriminator for each variant. -/
def AdditionalInput.typeTag : AdditionalInput → String
  | .Text _ _ _ _ _ _ _ _ _ => "text"
  | .Select _ _ _ _ _ => "select"
  | .TextWithImage _ _ _ _ _ _ _ _ _ _ => "text_with_image"

/-- The wire value of the `type` discriminator for each variant. -/
def AdditionalInputImage.typeTag : AdditionalInputImage → String
  | .Uri _ => "uri"
  | .Base64 _ _ => "base64"

/-- The wire value of the `type` discriminator for each variant. -/
def RedirectActionMetadata.typeTag : RedirectActionMetadata → String
  | .Provider _ => "provider"

/-- The wire value of the `type` discriminator for each variant. -/
def AuthorizationFlowNextAction.typeTag : AuthorizationFlowNextAction → String
  | .ProviderSelection _ => "provider_selection"
  | .Redirect _ _ => "redirect"
  | .Form _ => "form"
  | .Wait => "wait"

/-- A concrete user, for witnesses. -/
def sampleUser : User := ⟨"user-1", none, none, none⟩

/-- A concrete payment method, for witnesses. -/
def samplePaymentMethod : PaymentMethod :=
  .BankTransfer (.UserSelected none none) (.MerchantAccount "merchant-1" none)

/-- A concrete non-terminal payment, for witnesses. -/
def samplePayment : Payment :=
  ⟨"payment-1", 100, .Gbp, sampleUser, samplePaymentMethod,
   ⟨"2022-01-01T00:00:00Z"⟩, none, .AuthorizationRequired⟩

/-- A concrete terminal payment, for witnesses. -/
def sampleTerminalPayment : Payment :=
  ⟨"payment-1", 100, .Gbp, sampleUser, samplePaymentMethod,
   ⟨"2022-01-01T00:00:00Z"⟩, none,
   .Executed ⟨"2022-01-01T00:01:00Z"⟩ none none⟩

/-- A concrete creation response, for witnesses. -/
def sampleCreatePaymentResponse : CreatePaymentResponse :=
  ⟨"payment-1", ⟨"token-1"⟩, ⟨"user-1"⟩⟩

/-! Theorems. -/

theorem asObj_eq_some {j : Json} {kvs : List (String × Json)} :
    asObj j = some kvs ↔ j = .obj kvs := by
  cases j <;> simp [asObj]

theorem asStr_eq_some {j : Json} {s : String} :
    asStr j = some s ↔ j = .str s := by
  cases j <;> simp [asStr]

theorem reqField_eq_some {kvs : List (String × Json)} {name : String}
    {de : Json → Option α} {a : α} :
    reqField kvs name de = some a ↔
      ∃ j, assocFind kvs name = some j ∧ de j = some a := by
  unfold reqField
  cases assocFind kvs name <;> simp

theorem reqField_of_missing {kvs : List (String × Json)} {name : String}
    {de : Json → Option α} (h : assocFind kvs name = none) :
    reqField kvs name de = none := by
  unfold reqField
  rw [h]

theorem deElems_map_roundtrip {ser : α → Json} {de : Json → Option α}
    (xs : List α) (h : ∀ x ∈ xs, de (ser x) = some x) :
    deElems de (xs.map ser) = some xs := by
  induction xs with
  | nil => rfl
  | cons x xs ih =>
      have hx : de (ser x) = some x := h x (by simp)
      have hxs : deElems de (xs.map ser) = some xs :=
        ih (fun y hy => h y (by simp [hy]))
      simp [deElems, hx, hxs]

theorem deList_serList_roundtrip {ser : α → Json} {de : Json → Option α}
    (xs : List α) (h : ∀ x ∈ xs, de (ser x) = some x) :
    deList de (serList ser xs) = some xs := by
  simpa [deList, serList] using deElems_map_roundtrip xs h

/-! The payments data model, embedded from `src/apis/payments/model.rs`. -/

theorem rt_AccountIdentifier (v : AccountIdentifier) :
    fromJson_AccountIdentifier (toJson_AccountIdentifier v) = some v := by
  cases v <;>
    simp [toJson_AccountIdentifier, fromJson_AccountIdentifier, asObj, reqField,
      assocFind, asStr]

theorem rt_SettlementRisk (v : SettlementRisk) :
    fromJson_SettlementRisk (toJson_SettlementRisk v) = some v := by
  simp [toJson_SettlementRisk, fromJson_SettlementRisk, asObj, reqField,
    assocFind, asStr]

theorem deOpt_of_ne_null {de : Json → Option α} {j : Json} (h : j ≠ Json.null) :
    deOpt de j = (de j).map some := by
  cases j
  · exact absurd rfl h
  all_goals rfl

theorem deOpt_serOpt {ser : α → Json} {de : Json → Option α} (x : Option α)
    (h : ∀ a, de (ser a) = some a) (hnn : ∀ a, ser a ≠ Json.null) :
    deOpt de (serOpt ser x) = some x := by
  cases x with
  | none => rfl
  | some a =>
      show deOpt de (ser a) = some (some a)
      rw [deOpt_of_ne_null (hnn a), h a]
      rfl

theorem deOpt_rt_String (x : Option String) :
    deOpt asStr (serOpt Json.str x) = some x := by
  cases x <;> rfl

theorem serList_ne_null (ser : α → Json) (xs : List α) :
    serList ser xs ≠ Json.null := by
  simp [serList]

theorem deOpt_rt_AccountIdentifier (x : Option AccountIdentifier) :
    deOpt fromJson_AccountIdentifier (serOpt toJson_AccountIdentifier x) = some x :=
  deOpt_serOpt x rt_AccountIdentifier
    (by intro a; cases a <;> simp [toJson_AccountIdentifier])

theorem rt_Remitter (v : Remitter) :
    fromJson_Remitter (toJson_Remitter v) = some v := by
  simp [toJson_Remitter, fromJson_Remitter, asObj, optField, assocFind,
    deOpt_rt_String, deOpt_rt_AccountIdentifier]

theorem deList_rt_String (xs : List String) :
    deList asStr (serList Json.str xs) = some xs :=
  deList_serList_roundtrip xs (fun _ _ => rfl)

theorem deOpt_rt_StringList (x : Option (List String)) :
    deOpt (deList asStr) (serOpt (serList Json.str) x) = some x :=
  deOpt_serOpt x deList_rt_String (fun xs => serList_ne_null Json.str xs)

theorem rt_ProviderFilterExcludes (v : ProviderFilterExcludes) :
    fromJson_ProviderFilterExcludes (toJson_ProviderFilterExcludes v) = some v := by
  simp [toJson_ProviderFilterExcludes, fromJson_ProviderFilterExcludes, asObj,
    optField, assocFind, deOpt_rt_StringList]

theorem rt_CountryCode (v : CountryCode) :
    fromJson_CountryCode (toJson_CountryCode v) = some v := by
  cases v <;> rfl

theorem rt_ReleaseChannel (v : ReleaseChannel) :
    fromJson_ReleaseChannel (toJson_ReleaseChannel v) = some v := by
  cases v <;> rfl

theorem rt_CustomerSegment (v : CustomerSegment) :
    fromJson_CustomerSegment (toJson_CustomerSegment v) = some v := by
  cases v <;> rfl

theorem deOpt_rt_CountryCodeList (x : Option (List CountryCode)) :
    deOpt (deList fromJson_CountryCode) (serOpt (serList toJson_CountryCode) x) =
      some x :=
  deOpt_serOpt x (fun xs => deList_serList_roundtrip xs (fun y _ => rt_CountryCode y))
    (fun xs => serList_ne_null toJson_CountryCode xs)

theorem deOpt_rt_ReleaseChannel (x : Option ReleaseChannel) :
    deOpt fromJson_ReleaseChannel (serOpt toJson_ReleaseChannel x) = some x :=
  deOpt_serOpt x rt_ReleaseChannel
    (by intro a; cases a <;> simp [toJson_ReleaseChannel])

theorem deOpt_rt_CustomerSegmentList (x : Option (List CustomerSegment)) :
    deOpt (deList fromJson_CustomerSegment)
      (serOpt (serList toJson_CustomerSegment) x) = some x :=
  deOpt_serOpt x
    (fun xs => deList_serList_roundtrip xs (fun y _ => rt_CustomerSegment y))
    (fun xs => serList_ne_null toJson_CustomerSegment xs)

theorem deOpt_rt_ProviderFilterExcludes (x : Option ProviderFilterExcludes) :
    deOpt fromJson_ProviderFilterExcludes
      (serOpt toJson_ProviderFilterExcludes x) = some x :=
  deOpt_serOpt x rt_ProviderFilterExcludes
    (by intro a; simp [toJson_ProviderFilterExcludes])

theorem rt_ProviderFilter (v : ProviderFilter) :
    fromJson_ProviderFilter (toJson_ProviderFilter v) = some v := by
  simp [toJson_ProviderFilter, fromJson_ProviderFilter, asObj, optField, assocFind,
    deOpt_rt_CountryCodeList, deOpt_rt_ReleaseChannel, deOpt_rt_CustomerSegmentList,
    deOpt_rt_StringList, deOpt_rt_ProviderFilterExcludes]

theorem deOpt_rt_ProviderFilter (x : Option ProviderFilter) :
    deOpt fromJson_ProviderFilter (serOpt toJson_ProviderFilter x) = some x :=
  deOpt_serOpt x rt_ProviderFilter (by intro a; simp [toJson_ProviderFilter])

theorem deOpt_rt_Remitter (x : Option Remitter) :
    deOpt fromJson_Remitter (serOpt toJson_Remitter x) = some x :=
  deOpt_serOpt x rt_Remitter (by intro a; simp [toJson_Remitter])

theorem rt_ProviderSelection (v : ProviderSelection) :
    fromJson_ProviderSelection (toJson_ProviderSelection v) = some v := by
  cases v <;>
    simp [toJson_ProviderSelection, fromJson_ProviderSelection, asObj, reqField,
      optField, assocFind, asStr, deOpt_rt_ProviderFilter, deOpt_rt_StringList,
      deOpt_rt_Remitter]

theorem rt_Beneficiary (v : Beneficiary) :
    fromJson_Beneficiary (toJson_Beneficiary v) = some v := by
  cases v <;>
    simp [toJson_Beneficiary, fromJson_Beneficiary, asObj, reqField, optField,
      assocFind, asStr, deOpt_rt_String, rt_AccountIdentifier]

theorem rt_PaymentMethod (v : PaymentMethod) :
    fromJson_PaymentMethod (toJson_PaymentMethod v) = some v := by
  cases v
  simp [toJson_PaymentMethod, fromJson_PaymentMethod, asObj, reqField,
    assocFind, asStr, rt_ProviderSelection, rt_Beneficiary]

theorem rt_PaymentSource (v : PaymentSource) :
    fromJson_PaymentSource (toJson_PaymentSource v) = some v := by
  simp [toJson_PaymentSource, fromJson_PaymentSource, asObj, reqField, optField,
    defField, assocFind, asStr, deOpt_rt_String,
    deList_serList_roundtrip v.account_identifiers
      (fun y _ => rt_AccountIdentifier y)]

theorem deOpt_rt_CountryCode (x : Option CountryCode) :
    deOpt fromJson_CountryCode (serOpt toJson_CountryCode x) = some x :=
  deOpt_serOpt x rt_CountryCode (by intro a; cases a <;> simp [toJson_CountryCode])

theorem rt_Provider (v : Provider) :
    fromJson_Provider (toJson_Provider v) = some v := by
  simp [toJson_Provider, fromJson_Provider, asObj, reqField, optField, assocFind,
    asStr, deOpt_rt_String, deOpt_rt_CountryCode]

theorem rt_RedirectActionMetadata (v : RedirectActionMetadata) :
    fromJson_RedirectActionMetadata (toJson_RedirectActionMetadata v) = some v := by
  cases v
  simp [toJson_RedirectActionMetadata, fromJson_RedirectActionMetadata,
    fromJson_Provider, asObj, reqField, optField, assocFind, asStr,
    deOpt_rt_String, deOpt_rt_CountryCode]

theorem rt_AdditionalInputDisplayText (v : AdditionalInputDisplayText) :
    fromJson_AdditionalInputDisplayText (toJson_AdditionalInputDisplayText v) =
      some v := by
  simp [toJson_AdditionalInputDisplayText, fromJson_AdditionalInputDisplayText,
    asObj, reqField, assocFind, asStr]

theorem deOpt_rt_AdditionalInputDisplayText (x : Option AdditionalInputDisplayText) :
    deOpt fromJson_AdditionalInputDisplayText
      (serOpt toJson_AdditionalInputDisplayText x) = some x :=
  deOpt_serOpt x rt_AdditionalInputDisplayText
    (by intro a; simp [toJson_AdditionalInputDisplayText])

theorem rt_AdditionalInputRegex (v : AdditionalInputRegex) :
    fromJson_AdditionalInputRegex (toJson_AdditionalInputRegex v) = some v := by
  simp [toJson_AdditionalInputRegex, fromJson_AdditionalInputRegex, asObj,
    reqField, assocFind, asStr, rt_AdditionalInputDisplayText]

theorem rt_AdditionalInputOption (v : AdditionalInputOption) :
    fromJson_AdditionalInputOption (toJson_AdditionalInputOption v) = some v := by
  simp [toJson_AdditionalInputOption, fromJson_AdditionalInputOption, asObj,
    reqField, assocFind, asStr, rt_AdditionalInputDisplayText]

theorem rt_AdditionalInputImage (v : AdditionalInputImage) :
    fromJson_AdditionalInputImage (toJson_AdditionalInputImage v) = some v := by
  cases v <;>
    simp [toJson_AdditionalInputImage, fromJson_AdditionalInputImage, asObj,
      reqField, assocFind, asStr]

theorem rt_AdditionalInputFormat (v : AdditionalInputFormat) :
    fromJson_AdditionalInputFormat (toJson_AdditionalInputFormat v) = some v := by
  cases v <;> rfl

set_option maxHeartbeats 1600000 in
theorem rt_AdditionalInput (v : AdditionalInput) :
    fromJson_AdditionalInput (toJson_AdditionalInput v) = some v := by
  cases v with
  | Text id mandatory display_text description format sensitive min_length
      max_length regexes =>
      simp [toJson_AdditionalInput, fromJson_AdditionalInput, asObj, reqField,
        optField, assocFind, asStr, asBool, asInt,
        rt_AdditionalInputDisplayText, deOpt_rt_AdditionalInputDisplayText,
        rt_AdditionalInputFormat,
        deList_serList_roundtrip regexes (fun y _ => rt_AdditionalInputRegex y)]
  | Select id mandatory display_text description options =>
      simp [toJson_AdditionalInput, fromJson_AdditionalInput, asObj, reqField,
        optField, assocFind, asStr, asBool,
        rt_AdditionalInputDisplayText, deOpt_rt_AdditionalInputDisplayText,
        deList_serList_roundtrip options (fun y _ => rt_AdditionalInputOption y)]
  | TextWithImage id mandatory display_text description format sensitive
      min_length max_length regexes image =>
      simp [toJson_AdditionalInput, fromJson_AdditionalInput, asObj, reqField,
        optField, assocFind, asStr, asBool, asInt,
        rt_AdditionalInputDisplayText, deOpt_rt_AdditionalInputDisplayText,
        rt_AdditionalInputFormat, rt_AdditionalInputImage,
        deList_serList_roundtrip regexes (fun y _ => rt_AdditionalInputRegex y)]

theorem deOpt_rt_RedirectActionMetadata (x : Option RedirectActionMetadata) :
    deOpt fromJson_RedirectActionMetadata
      (serOpt toJson_RedirectActionMetadata x) = some x :=
  deOpt_serOpt x rt_RedirectActionMetadata
    (by intro a; cases a; simp [toJson_RedirectActionMetadata])

theorem rt_AuthorizationFlowNextAction (v : AuthorizationFlowNextAction) :
    fromJson_AuthorizationFlowNextAction (toJson_AuthorizationFlowNextAction v) =
      some v := by
  cases v with
  | ProviderSelection providers =>
      simp [toJson_AuthorizationFlowNextAction, fromJson_AuthorizationFlowNextAction,
        asObj, reqField, assocFind, asStr,
        deList_serList_roundtrip providers (fun y _ => rt_Provider y)]
  | Redirect uri metadata =>
      simp [toJson_AuthorizationFlowNextAction, fromJson_AuthorizationFlowNextAction,
        asObj, reqField, optField, assocFind, asStr,
        deOpt_rt_RedirectActionMetadata]
  | Form inputs =>
      simp [toJson_AuthorizationFlowNextAction, fromJson_AuthorizationFlowNextAction,
        asObj, reqField, assocFind, asStr,
        deList_serList_roundtrip inputs (fun y _ => rt_AdditionalInput y)]
  | Wait =>
      simp [toJson_AuthorizationFlowNextAction, fromJson_AuthorizationFlowNextAction,
        asObj, reqField, assocFind, asStr]

theorem rt_AuthorizationFlowActions (v : AuthorizationFlowActions) :
    fromJson_AuthorizationFlowActions (toJson_AuthorizationFlowActions v) =
      some v := by
  simp [toJson_AuthorizationFlowActions, fromJson_AuthorizationFlowActions, asObj,
    reqField, assocFind, rt_AuthorizationFlowNextAction]

theorem rt_ProviderSelectionSupported (v : ProviderSelectionSupported) :
    fromJson_ProviderSelectionSupported (toJson_ProviderSelectionSupported v) =
      some v := by
  rfl

theorem rt_RedirectSupported (v : RedirectSupported) :
    fromJson_RedirectSupported (toJson_RedirectSupported v) = some v := by
  simp [toJson_RedirectSupported, fromJson_RedirectSupported, asObj, reqField,
    optField, assocFind, asStr, deOpt_rt_String]

theorem rt_AdditionalInputType (v : AdditionalInputType) :
    fromJson_AdditionalInputType (toJson_AdditionalInputType v) = some v := by
  cases v <;> rfl

theorem rt_FormSupported (v : FormSupported) :
    fromJson_FormSupported (toJson_FormSupported v) = some v := by
  simp [toJson_FormSupported, fromJson_FormSupported, asObj, reqField, assocFind,
    deList_serList_roundtrip v.input_types (fun y _ => rt_AdditionalInputType y)]

theorem deOpt_rt_ProviderSelectionSupported (x : Option ProviderSelectionSupported) :
    deOpt fromJson_ProviderSelectionSupported
      (serOpt toJson_ProviderSelectionSupported x) = some x :=
  deOpt_serOpt x rt_ProviderSelectionSupported
    (by intro a; simp [toJson_ProviderSelectionSupported])

theorem deOpt_rt_RedirectSupported (x : Option RedirectSupported) :
    deOpt fromJson_RedirectSupported (serOpt toJson_RedirectSupported x) = some x :=
  deOpt_serOpt x rt_RedirectSupported (by intro a; simp [toJson_RedirectSupported])

theorem deOpt_rt_FormSupported (x : Option FormSupported) :
    deOpt fromJson_FormSupported (serOpt toJson_FormSupported x) = some x :=
  deOpt_serOpt x rt_FormSupported (by intro a; simp [toJson_FormSupported])

theorem rt_AuthorizationFlowConfiguration (v : AuthorizationFlowConfiguration) :
    fromJson_AuthorizationFlowConfiguration
      (toJson_AuthorizationFlowConfiguration v) = some v := by
  simp [toJson_AuthorizationFlowConfiguration,
    fromJson_AuthorizationFlowConfiguration, asObj, optField, assocFind,
    deOpt_rt_ProviderSelectionSupported, deOpt_rt_RedirectSupported,
    deOpt_rt_FormSupported]

theorem deOpt_rt_AuthorizationFlowActions (x : Option AuthorizationFlowActions) :
    deOpt fromJson_AuthorizationFlowActions
      (serOpt toJson_AuthorizationFlowActions x) = some x :=
  deOpt_serOpt x rt_AuthorizationFlowActions
    (by intro a; simp [toJson_AuthorizationFlowActions])

theorem deOpt_rt_AuthorizationFlowConfiguration
    (x : Option AuthorizationFlowConfiguration) :
    deOpt fromJson_AuthorizationFlowConfiguration
      (serOpt toJson_AuthorizationFlowConfiguration x) = some x :=
  deOpt_serOpt x rt_AuthorizationFlowConfiguration
    (by intro a; simp [toJson_AuthorizationFlowConfiguration])

theorem rt_AuthorizationFlow (v : AuthorizationFlow) :
    fromJson_AuthorizationFlow (toJson_AuthorizationFlow v) = some v := by
  simp [toJson_AuthorizationFlow, fromJson_AuthorizationFlow, asObj, optField,
    assocFind, deOpt_rt_AuthorizationFlowActions,
    deOpt_rt_AuthorizationFlowConfiguration]

theorem rt_DateTimeUtc (v : DateTimeUtc) :
    fromJson_DateTimeUtc (toJson_DateTimeUtc v) = some v := rfl

theorem rt_FailureStage (v : FailureStage) :
    fromJson_FailureStage (toJson_FailureStage v) = some v := by
  cases v <;> rfl

theorem deOpt_rt_AuthorizationFlow (x : Option AuthorizationFlow) :
    deOpt fromJson_AuthorizationFlow (serOpt toJson_AuthorizationFlow x) =
      some x :=
  deOpt_serOpt x rt_AuthorizationFlow (by intro a; simp [toJson_AuthorizationFlow])

theorem deOpt_rt_SettlementRisk (x : Option SettlementRisk) :
    deOpt fromJson_SettlementRisk (serOpt toJson_SettlementRisk x) = some x :=
  deOpt_serOpt x rt_SettlementRisk (by intro a; simp [toJson_SettlementRisk])

set_option maxHeartbeats 1600000 in
theorem rt_PaymentStatus (v : PaymentStatus) :
    fromJson_PaymentStatus (toJson_PaymentStatus v) = some v := by
  cases v <;>
    simp [toJson_PaymentStatus, paymentStatusFields, fromJson_PaymentStatus,
      asObj, reqField, optField, assocFind, asStr, rt_AuthorizationFlow,
      deOpt_rt_AuthorizationFlow, deOpt_rt_SettlementRisk, rt_DateTimeUtc,
      rt_PaymentSource, rt_FailureStage, fromJson_DateTimeUtc, toJson_DateTimeUtc]

theorem rt_AuthorizationFlowResponseStatus (v : AuthorizationFlowResponseStatus) :
    fromJson_AuthorizationFlowResponseStatus
      (toJson_AuthorizationFlowResponseStatus v) = some v := by
  cases v <;>
    simp [toJson_AuthorizationFlowResponseStatus,
      authorizationFlowResponseStatusFields,
      fromJson_AuthorizationFlowResponseStatus, asObj, reqField, assocFind,
      asStr, rt_FailureStage]

theorem optBind_none {α β : Type} (f : α → Option β) :
    ((none : Option α) >>= f) = none := rfl

theorem optBind_some {α β : Type} (a : α) (f : α → Option β) :
    ((some a : Option α) >>= f) = f a := rfl

theorem optBind_eq_some {α β : Type} {o : Option α} {f : α → Option β} {b : β} :
    (o >>= f) = some b ↔ ∃ a, o = some a ∧ f a = some b := by
  cases o <;> simp

theorem fromJson_PaymentStatus_tag {j : Json} {v : PaymentStatus}
    (h : fromJson_PaymentStatus j = some v) :
    ∃ kvs, j = .obj kvs ∧
      assocFind kvs "status" = some (.str v.statusTag) := by
  unfold fromJson_PaymentStatus at h
  rcases hobj : asObj j with _ | kvs <;> rw [hobj] at h
  · rw [optBind_none] at h; exact absurd h (by simp)
  rw [optBind_some] at h
  refine ⟨kvs, asObj_eq_some.mp hobj, ?_⟩
  rcases htag : reqField kvs "status" asStr with _ | tag <;> rw [htag] at h
  · rw [optBind_none] at h; exact absurd h (by simp)
  rw [optBind_some] at h
  obtain ⟨jt, hjt, hjs⟩ := reqField_eq_some.mp htag
  rw [hjt, asStr_eq_some.mp hjs]
  split at h
  · cases h; subst_vars; rfl
  split at h
  · rcases optBind_eq_some.mp h with ⟨a0, ha0, h⟩
    cases h; subst_vars; rfl
  split at h
  · rcases optBind_eq_some.mp h with ⟨a0, ha0, h⟩
    cases h; subst_vars; rfl
  split at h
  · rcases optBind_eq_some.mp h with ⟨a0, ha0, h⟩
    rcases optBind_eq_some.mp h with ⟨a1, ha1, h⟩
    rcases optBind_eq_some.mp h with ⟨a2, ha2, h⟩
    cases h; subst_vars; rfl
  split at h
  · rcases optBind_eq_some.mp h with ⟨a0, ha0, h⟩
    rcases optBind_eq_some.mp h with ⟨a1, ha1, h⟩
    rcases optBind_eq_some.mp h with ⟨a2, ha2, h⟩
    rcases optBind_eq_some.mp h with ⟨a3, ha3, h⟩
    rcases optBind_eq_some.mp h with ⟨a4, ha4, h⟩
    cases h; subst_vars; rfl
  split at h
  · rcases optBind_eq_some.mp h with ⟨a0, ha0, h⟩
    rcases optBind_eq_some.mp h with ⟨a1, ha1, h⟩
    rcases optBind_eq_some.mp h with ⟨a2, ha2, h⟩
    rcases optBind_eq_some.mp h with ⟨a3, ha3, h⟩
    cases h; subst_vars; rfl
  · exact absurd h (by simp)

theorem fromJson_PaymentStatus_missingTag (kvs : List (String × Json))
    (h : assocFind kvs "status" = none) :
    fromJson_PaymentStatus (.obj kvs) = none := by
  unfold fromJson_PaymentStatus
  rw [show asObj (Json.obj kvs) = some kvs from rfl, optBind_some,
      reqField_of_missing h, optBind_none]

theorem fromJson_PaymentStatus_unknownTag (kvs : List (String × Json)) (s : String)
    (h : assocFind kvs "status" = some (.str s))
    (hs : s ∉ ["authorization_required", "authorizing", "authorized", "executed", "settled", "failed"]) :
    fromJson_PaymentStatus (.obj kvs) = none := by
  unfold fromJson_PaymentStatus
  rw [show asObj (Json.obj kvs) = some kvs from rfl, optBind_some,
      show reqField kvs "status" asStr = some s by simp [reqField, h, asStr],
      optBind_some]
  have h0 : ¬ (s = "authorization_required") := fun e => hs (by simp [e])
  have h1 : ¬ (s = "authorizing") := fun e => hs (by simp [e])
  have h2 : ¬ (s = "authorized") := fun e => hs (by simp [e])
  have h3 : ¬ (s = "executed") := fun e => hs (by simp [e])
  have h4 : ¬ (s = "settled") := fun e => hs (by simp [e])
  have h5 : ¬ (s = "failed") := fun e => hs (by simp [e])
  simp [h0, h1, h2, h3, h4, h5]

theorem fromJson_AuthorizationFlowNextAction_tag {j : Json} {v : AuthorizationFlowNextAction}
    (h : fromJson_AuthorizationFlowNextAction j = some v) :
    ∃ kvs, j = .obj kvs ∧
      assocFind kvs "type" = some (.str v.typeTag) := by
  unfold fromJson_AuthorizationFlowNextAction at h
  rcases hobj : asObj j with _ | kvs <;> rw [hobj] at h
  · rw [optBind_none] at h; exact absurd h (by simp)
  rw [optBind_some] at h
  refine ⟨kvs, asObj_eq_some.mp hobj, ?_⟩
  rcases htag : reqField kvs "type" asStr with _ | tag <;> rw [htag] at h
  · rw [optBind_none] at h; exact absurd h (by simp)
  rw [optBind_some] at h
  obtain ⟨jt, hjt, hjs⟩ := reqField_eq_some.mp htag
  rw [hjt, asStr_eq_some.mp hjs]
  split at h
  · rcases optBind_eq_some.mp h with ⟨a0, ha0, h⟩
    cases h; subst_vars; rfl
  split at h
  · rcases optBind_eq_some.mp h with ⟨a0, ha0, h⟩
    rcases optBind_eq_some.mp h with ⟨a1, ha1, h⟩
    cases h; subst_vars; rfl
  split at h
  · rcases optBind_eq_some.mp h with ⟨a0, ha0, h⟩
    cases h; subst_vars; rfl
  split at h
  · cases h; subst_vars; rfl
  · exact absurd h (by simp)

theorem fromJson_AuthorizationFlowNextAction_missingTag (kvs : List (String × Json))
    (h : assocFind kvs "type" = none) :
    fromJson_AuthorizationFlowNextAction (.obj kvs) = none := by
  unfold fromJson_AuthorizationFlowNextAction
  rw [show asObj (Json.obj kvs) = some kvs from rfl, optBind_some,
      reqField_of_missing h, optBind_none]

theorem fromJson_AuthorizationFlowNextAction_unknownTag (kvs : List (String × Json)) (s : String)
    (h : assocFind kvs "type" = some (.str s))
    (hs : s ∉ ["provider_selection", "redirect", "form", "wait"]) :
    fromJson_AuthorizationFlowNextAction (.obj kvs) = none := by
  unfold fromJson_AuthorizationFlowNextAction
  rw [show asObj (Json.obj kvs) = some kvs from rfl, optBind_some,
      show reqField kvs "type" asStr = some s by simp [reqField, h, asStr],
      optBind_some]
  have h0 : ¬ (s = "provider_selection") := fun e => hs (by simp [e])
  have h1 : ¬ (s = "redirect") := fun e => hs (by simp [e])
  have h2 : ¬ (s = "form") := fun e => hs (by simp [e])
  have h3 : ¬ (s = "wait") := fun e => hs (by simp [e])
  simp [h0, h1, h2, h3]

theorem fromJson_AuthorizationFlowResponseStatus_tag {j : Json} {v : AuthorizationFlowResponseStatus}
    (h : fromJson_AuthorizationFlowResponseStatus j = some v) :
    ∃ kvs, j = .obj kvs ∧
      assocFind kvs "status" = some (.str v.statusTag) := by
  unfold fromJson_AuthorizationFlowResponseStatus at h
  rcases hobj : asObj j with _ | kvs <;> rw [hobj] at h
  · rw [optBind_none] at h; exact absurd h (by simp)
  rw [optBind_some] at h
  refine ⟨kvs, asObj_eq_some.mp hobj, ?_⟩
  rcases htag : reqField kvs "status" asStr with _ | tag <;> rw [htag] at h
  · rw [optBind_none] at h; exact absurd h (by simp)
  rw [optBind_some] at h
  obtain ⟨jt, hjt, hjs⟩ := reqField_eq_some.mp htag
  rw [hjt, asStr_eq_some.mp hjs]
  split at h
  · cases h; subst_vars; rfl
  split at h
  · rcases optBind_eq_some.mp h with ⟨a0, ha0, h⟩
    rcases optBind_eq_some.mp h with ⟨a1, ha1, h⟩
    cases h; subst_vars; rfl
  · exact absurd h (by simp)

theorem fromJson_AuthorizationFlowResponseStatus_missingTag (kvs : List (String × Json))
    (h : assocFind kvs "status" = none) :
    fromJson_AuthorizationFlowResponseStatus (.obj kvs) = none := by
  unfold fromJson_AuthorizationFlowResponseStatus
  rw [show asObj (Json.obj kvs) = some kvs from rfl, optBind_some,
      reqField_of_missing h, optBind_none]

theorem fromJson_AuthorizationFlowResponseStatus_unknownTag (kvs : List (String × Json)) (s : String)
    (h : assocFind kvs "status" = some (.str s))
    (hs : s ∉ ["authorizing", "failed"]) :
    fromJson_AuthorizationFlowResponseStatus (.obj kvs) = none := by
  unfold fromJson_AuthorizationFlowResponseStatus
  rw [show asObj (Json.obj kvs) = some kvs from rfl, optBind_some,
      show reqField kvs "status" asStr = some s by simp [reqField, h, asStr],
      optBind_some]
  have h0 : ¬ (s = "authorizing") := fun e => hs (by simp [e])
  have h1 : ¬ (s = "failed") := fun e => hs (by simp [e])
  simp [h0, h1]

theorem fromJson_AccountIdentifier_tag {j : Json} {v : AccountIdentifier}
    (h : fromJson_AccountIdentifier j = some v) :
    ∃ kvs, j = .obj kvs ∧
      assocFind kvs "type" = some (.str v.typeTag) := by
  unfold fromJson_AccountIdentifier at h
  rcases hobj : asObj j with _ | kvs <;> rw [hobj] at h
  · rw [optBind_none] at h; exact absurd h (by simp)
  rw [optBind_some] at h
  refine ⟨kvs, asObj_eq_some.mp hobj, ?_⟩
  rcases htag : reqField kvs "type" asStr with _ | tag <;> rw [htag] at h
  · rw [optBind_none] at h; exact absurd h (by simp)
  rw [optBind_some] at h
  obtain ⟨jt, hjt, hjs⟩ := reqField_eq_some.mp htag
  rw [hjt, asStr_eq_some.mp hjs]
  split at h
  · rcases optBind_eq_some.mp h with ⟨a0, ha0, h⟩
    rcases optBind_eq_some.mp h with ⟨a1, ha1, h⟩
    cases h; subst_vars; rfl
  split at h
  · rcases optBind_eq_some.mp h with ⟨a0, ha0, h⟩
    cases h; subst_vars; rfl
  split at h
  · rcases optBind_eq_some.mp h with ⟨a0, ha0, h⟩
    cases h; subst_vars; rfl
  split at h
  · rcases optBind_eq_some.mp h with ⟨a0, ha0, h⟩
    cases h; subst_vars; rfl
  · exact absurd h (by simp)

theorem fromJson_AccountIdentifier_missingTag (kvs : List (String × Json))
    (h : assocFind kvs "type" = none) :
    fromJson_AccountIdentifier (.obj kvs) = none := by
  unfold fromJson_AccountIdentifier
  rw [show asObj (Json.obj kvs) = some kvs from rfl, optBind_some,
      reqField_of_missing h, optBind_none]

theorem fromJson_AccountIdentifier_unknownTag (kvs : List (String × Json)) (s : String)
    (h : assocFind kvs "type" = some (.str s))
    (hs : s ∉ ["sort_code_account_number", "iban", "bban", "nrb"]) :
    fromJson_AccountIdentifier (.obj kvs) = none := by
  unfold fromJson_AccountIdentifier
  rw [show asObj (Json.obj kvs) = some kvs from rfl, optBind_some,
      show reqField kvs "type" asStr = some s by simp [reqField, h, asStr],
      optBind_some]
  have h0 : ¬ (s = "sort_code_account_number") := fun e => hs (by simp [e])
  have h1 : ¬ (s = "iban") := fun e => hs (by simp [e])
  have h2 : ¬ (s = "bban") := fun e => hs (by simp [e])
  have h3 : ¬ (s = "nrb") := fun e => hs (by simp [e])
  simp [h0, h1, h2, h3]

theorem fromJson_Beneficiary_tag {j : Json} {v : Beneficiary}
    (h : fromJson_Beneficiary j = some v) :
    ∃ kvs, j = .obj kvs ∧
      assocFind kvs "type" = some (.str v.typeTag) := by
  unfold fromJson_Beneficiary at h
  rcases hobj : asObj j with _ | kvs <;> rw [hobj] at h
  · rw [optBind_none] at h; exact absurd h (by simp)
  rw [optBind_some] at h
  refine ⟨kvs, asObj_eq_some.mp hobj, ?_⟩
  rcases htag : reqField kvs "type" asStr with _ | tag <;> rw [htag] at h
  · rw [optBind_none] at h; exact absurd h (by simp)
  rw [optBind_some] at h
  obtain ⟨jt, hjt, hjs⟩ := reqField_eq_some.mp htag
  rw [hjt, asStr_eq_some.mp hjs]
  split at h
  · rcases optBind_eq_some.mp h with ⟨a0, ha0, h⟩
    rcases optBind_eq_some.mp h with ⟨a1, ha1, h⟩
    cases h; subst_vars; rfl
  split at h
  · rcases optBind_eq_some.mp h with ⟨a0, ha0, h⟩
    rcases optBind_eq_some.mp h with ⟨a1, ha1, h⟩
    rcases optBind_eq_some.mp h with ⟨a2, ha2, h⟩
    cases h; subst_vars; rfl
  · exact absurd h (by simp)

theorem fromJson_Beneficiary_missingTag (kvs : List (String × Json))
    (h : assocFind kvs "type" = none) :
    fromJson_Beneficiary (.obj kvs) = none := by
  unfold fromJson_Beneficiary
  rw [show asObj (Json.obj kvs) = some kvs from rfl, optBind_some,
      reqField_of_missing h, optBind_none]

theorem fromJson_Beneficiary_unknownTag (kvs : List (String × Json)) (s : String)
    (h : assocFind kvs "type" = some (.str s))
    (hs : s ∉ ["merchant_account", "external_account"]) :
    fromJson_Beneficiary (.obj kvs) = none := by
  unfold fromJson_Beneficiary
  rw [show asObj (Json.obj kvs) = some kvs from rfl, optBind_some,
      show reqField kvs "type" asStr = some s by simp [reqField, h, asStr],
      optBind_some]
  have h0 : ¬ (s = "merchant_account") := fun e => hs (by simp [e])
  have h1 : ¬ (s = "external_account") := fun e => hs (by simp [e])
  simp [h0, h1]

theorem fromJson_ProviderSelection_tag {j : Json} {v : ProviderSelection}
    (h : fromJson_ProviderSelection j = some v) :
    ∃ kvs, j = .obj kvs ∧
      assocFind kvs "type" = some (.str v.typeTag) := by
  unfold fromJson_ProviderSelection at h
  rcases hobj : asObj j with _ | kvs <;> rw [hobj] at h
  · rw [optBind_none] at h; exact absurd h (by simp)
  rw [optBind_some] at h
  refine ⟨kvs, asObj_eq_some.mp hobj, ?_⟩
  rcases htag : reqField kvs "type" asStr with _ | tag <;> rw [htag] at h
  · rw [optBind_none] at h; exact absurd h (by simp)
  rw [optBind_some] at h
  obtain ⟨jt, hjt, hjs⟩ := reqField_eq_some.mp htag
  rw [hjt, asStr_eq_some.mp hjs]
  split at h
  · rcases optBind_eq_some.mp h with ⟨a0, ha0, h⟩
    rcases optBind_eq_some.mp h with ⟨a1, ha1, h⟩
    cases h; subst_vars; rfl
  split at h
  · rcases optBind_eq_some.mp h with ⟨a0, ha0, h⟩
    rcases optBind_eq_some.mp h with ⟨a1, ha1, h⟩
    rcases optBind_eq_some.mp h with ⟨a2, ha2, h⟩
    cases h; subst_vars; rfl
  · exact absurd h (by simp)

theorem fromJson_ProviderSelection_missingTag (kvs : List (String × Json))
    (h : assocFind kvs "type" = none) :
    fromJson_ProviderSelection (.obj kvs) = none := by
  unfold fromJson_ProviderSelection
  rw [show asObj (Json.obj kvs) = some kvs from rfl, optBind_some,
      reqField_of_missing h, optBind_none]

theorem fromJson_ProviderSelection_unknownTag (kvs : List (String × Json)) (s : String)
    (h : assocFind kvs "type" = some (.str s))
    (hs : s ∉ ["user_selected", "preselected"]) :
    fromJson_ProviderSelection (.obj kvs) = none := by
  unfold fromJson_ProviderSelection
  rw [show asObj (Json.obj kvs) = some kvs from rfl, optBind_some,
      show reqField kvs "type" asStr = some s by simp [reqField, h, asStr],
      optBind_some]
  have h0 : ¬ (s = "user_selected") := fun e => hs (by simp [e])
  have h1 : ¬ (s = "preselected") := fun e => hs (by simp [e])
  simp [h0, h1]

theorem fromJson_PaymentMethod_tag {j : Json} {v : PaymentMethod}
    (h : fromJson_PaymentMethod j = some v) :
    ∃ kvs, j = .obj kvs ∧
      assocFind kvs "type" = some (.str v.typeTag) := by
  unfold fromJson_PaymentMethod at h
  rcases hobj : asObj j with _ | kvs <;> rw [hobj] at h
  · rw [optBind_none] at h; exact absurd h (by simp)
  rw [optBind_some] at h
  refine ⟨kvs, asObj_eq_some.mp hobj, ?_⟩
  rcases htag : reqField kvs "type" asStr with _ | tag <;> rw [htag] at h
  · rw [optBind_none] at h; exact absurd h (by simp)
  rw [optBind_some] at h
  obtain ⟨jt, hjt, hjs⟩ := reqField_eq_some.mp htag
  rw [hjt, asStr_eq_some.mp hjs]
  split at h
  · rcases optBind_eq_some.mp h with ⟨a0, ha0, h⟩
    rcases optBind_eq_some.mp h with ⟨a1, ha1, h⟩
    cases h; subst_vars; rfl
  · exact absurd h (by simp)

theorem fromJson_PaymentMethod_missingTag (kvs : List (String × Json))
    (h : assocFind kvs "type" = none) :
    fromJson_PaymentMethod (.obj kvs) = none := by
  unfold fromJson_PaymentMethod
  rw [show asObj (Json.obj kvs) = some kvs from rfl, optBind_some,
      reqField_of_missing h, optBind_none]

theorem fromJson_PaymentMethod_unknownTag (kvs : List (String × Json)) (s : String)
    (h : assocFind kvs "type" = some (.str s))
    (hs : s ∉ ["bank_transfer"]) :
    fromJson_PaymentMethod (.obj kvs) = none := by
  unfold fromJson_PaymentMethod
  rw [show asObj (Json.obj kvs) = some kvs from rfl, optBind_some,
      show reqField kvs "type" asStr = some s by simp [reqField, h, asStr],
      optBind_some]
  have h0 : ¬ (s = "bank_transfer") := fun e => hs (by simp [e])
  simp [h0]

theorem fromJson_AdditionalInput_tag {j : Json} {v : AdditionalInput}
    (h : fromJson_AdditionalInput j = some v) :
    ∃ kvs, j = .obj kvs ∧
      assocFind kvs "type" = some (.str v.typeTag) := by
  unfold fromJson_AdditionalInput at h
  rcases hobj : asObj j with _ | kvs <;> rw [hobj] at h
  · rw [optBind_none] at h; exact absurd h (by simp)
  rw [optBind_some] at h
  refine ⟨kvs, asObj_eq_some.mp hobj, ?_⟩
  rcases htag : reqField kvs "type" asStr with _ | tag <;> rw [htag] at h
  · rw [optBind_none] at h; exact absurd h (by simp)
  rw [optBind_some] at h
  obtain ⟨jt, hjt, hjs⟩ := reqField_eq_some.mp htag
  rw [hjt, asStr_eq_some.mp hjs]
  split at h
  · rcases optBind_eq_some.mp h with ⟨a0, ha0, h⟩
    rcases optBind_eq_some.mp h with ⟨a1, ha1, h⟩
    rcases optBind_eq_some.mp h with ⟨a2, ha2, h⟩
    rcases optBind_eq_some.mp h with ⟨a3, ha3, h⟩
    rcases optBind_eq_some.mp h with ⟨a4, ha4, h⟩
    rcases optBind_eq_some.mp h with ⟨a5, ha5, h⟩
    rcases optBind_eq_some.mp h with ⟨a6, ha6, h⟩
    rcases optBind_eq_some.mp h with ⟨a7, ha7, h⟩
    rcases optBind_eq_some.mp h with ⟨a8, ha8, h⟩
    cases h; subst_vars; rfl
  split at h
  · rcases optBind_eq_some.mp h with ⟨a0, ha0, h⟩
    rcases optBind_eq_some.mp h with ⟨a1, ha1, h⟩
    rcases optBind_eq_some.mp h with ⟨a2, ha2, h⟩
    rcases optBind_eq_some.mp h with ⟨a3, ha3, h⟩
    rcases optBind_eq_some.mp h with ⟨a4, ha4, h⟩
    cases h; subst_vars; rfl
  split at h
  · rcases optBind_eq_some.mp h with ⟨a0, ha0, h⟩
    rcases optBind_eq_some.mp h with ⟨a1, ha1, h⟩
    rcases optBind_eq_some.mp h with ⟨a2, ha2, h⟩
    rcases optBind_eq_some.mp h with ⟨a3, ha3, h⟩
    rcases optBind_eq_some.mp h with ⟨a4, ha4, h⟩
    rcases optBind_eq_some.mp h with ⟨a5, ha5, h⟩
    rcases optBind_eq_some.mp h with ⟨a6, ha6, h⟩
    rcases optBind_eq_some.mp h with ⟨a7, ha7, h⟩
    rcases optBind_eq_some.mp h with ⟨a8, ha8, h⟩
    rcases optBind_eq_some.mp h with ⟨a9, ha9, h⟩
    cases h; subst_vars; rfl
  · exact absurd h (by simp)

theorem fromJson_AdditionalInput_missingTag (kvs : List (String × Json))
    (h : assocFind kvs "type" = none) :
    fromJson_AdditionalInput (.obj kvs) = none := by
  unfold fromJson_AdditionalInput
  rw [show asObj (Json.obj kvs) = some kvs from rfl, optBind_some,
      reqField_of_missing h, optBind_none]

theorem fromJson_AdditionalInput_unknownTag (kvs : List (String × Json)) (s : String)
    (h : assocFind kvs "type" = some (.str s))
    (hs : s ∉ ["text", "select", "text_with_image"]) :
    fromJson_AdditionalInput (.obj kvs) = none := by
  unfold fromJson_AdditionalInput
  rw [show asObj (Json.obj kvs) = some kvs from rfl, optBind_some,
      show reqField kvs "type" asStr = some s by simp [reqField, h, asStr],
      optBind_some]
  have h0 : ¬ (s = "text") := fun e => hs (by simp [e])
  have h1 : ¬ (s = "select") := fun e => hs (by simp [e])
  have h2 : ¬ (s = "text_with_image") := fun e => hs (by simp [e])
  simp [h0, h1, h2]

theorem fromJson_AdditionalInputImage_tag {j : Json} {v : AdditionalInputImage}
    (h : fromJson_AdditionalInputImage j = some v) :
    ∃ kvs, j = .obj kvs ∧
      assocFind kvs "type" = some (.str v.typeTag) := by
  unfold fromJson_AdditionalInputImage at h
  rcases hobj : asObj j with _ | kvs <;> rw [hobj] at h
  · rw [optBind_none] at h; exact absurd h (by simp)
  rw [optBind_some] at h
  refine ⟨kvs, asObj_eq_some.mp hobj, ?_⟩
  rcases htag : reqField kvs "type" asStr with _ | tag <;> rw [htag] at h
  · rw [optBind_none] at h; exact absurd h (by simp)
  rw [optBind_some] at h
  obtain ⟨jt, hjt, hjs⟩ := reqField_eq_some.mp htag
  rw [hjt, asStr_eq_some.mp hjs]
  split at h
  · rcases optBind_eq_some.mp h with ⟨a0, ha0, h⟩
    cases h; subst_vars; rfl
  split at h
  · rcases optBind_eq_some.mp h with ⟨a0, ha0, h⟩
    rcases optBind_eq_some.mp h with ⟨a1, ha1, h⟩
    cases h; subst_vars; rfl
  · exact absurd h (by simp)

theorem fromJson_AdditionalInputImage_missingTag (kvs : List (String × Json))
    (h : assocFind kvs "type" = none) :
    fromJson_AdditionalInputImage (.obj kvs) = none := by
  unfold fromJson_AdditionalInputImage
  rw [show asObj (Json.obj kvs) = some kvs from rfl, optBind_some,
      reqField_of_missing h, optBind_none]

theorem fromJson_AdditionalInputImage_unknownTag (kvs : List (String × Json)) (s : String)
    (h : assocFind kvs "type" = some (.str s))
    (hs : s ∉ ["uri", "base64"]) :
    fromJson_AdditionalInputImage (.obj kvs) = none := by
  unfold fromJson_AdditionalInputImage
  rw [show asObj (Json.obj kvs) = some kvs from rfl, optBind_some,
      show reqField kvs "type" asStr = some s by simp [reqField, h, asStr],
      optBind_some]
  have h0 : ¬ (s = "uri") := fun e => hs (by simp [e])
  have h1 : ¬ (s = "base64") := fun e => hs (by simp [e])
  simp [h0, h1]

theorem fromJson_RedirectActionMetadata_tag {j : Json} {v : RedirectActionMetadata}
    (h : fromJson_RedirectActionMetadata j = some v) :
    ∃ kvs, j = .obj kvs ∧
      assocFind kvs "type" = some (.str v.typeTag) := by
  unfold fromJson_RedirectActionMetadata at h
  rcases hobj : asObj j with _ | kvs <;> rw [hobj] at h
  · rw [optBind_none] at h; exact absurd h (by simp)
  rw [optBind_some] at h
  refine ⟨kvs, asObj_eq_some.mp hobj, ?_⟩
  rcases htag : reqField kvs "type" asStr with _ | tag <;> rw [htag] at h
  · rw [optBind_none] at h; exact absurd h (by simp)
  rw [optBind_some] at h
  obtain ⟨jt, hjt, hjs⟩ := reqField_eq_some.mp htag
  rw [hjt, asStr_eq_some.mp hjs]
  split at h
  · rcases optBind_eq_some.mp h with ⟨a0, ha0, h⟩
    cases h; subst_vars; rfl
  · exact absurd h (by simp)

theorem fromJson_RedirectActionMetadata_missingTag (kvs : List (String × Json))
    (h : assocFind kvs "type" = none) :
    fromJson_RedirectActionMetadata (.obj kvs) = none := by
  unfold fromJson_RedirectActionMetadata
  rw [show asObj (Json.obj kvs) = some kvs from rfl, optBind_some,
      reqField_of_missing h, optBind_none]

theorem fromJson_RedirectActionMetadata_unknownTag (kvs : List (String × Json)) (s : String)
    (h : assocFind kvs "type" = some (.str s))
    (hs : s ∉ ["provider"]) :
    fromJson_RedirectActionMetadata (.obj kvs) = none := by
  unfold fromJson_RedirectActionMetadata
  rw [show asObj (Json.obj kvs) = some kvs from rfl, optBind_some,
      show reqField kvs "type" asStr = some s by simp [reqField, h, asStr],
      optBind_some]
  have h0 : ¬ (s = "provider") := fun e => hs (by simp [e])
  simp [h0]

/-- C1: `is_in_terminal_state` returns true iff the payment's status variant
is one of `Executed`, `Settled`, `Failed`, and false for each of
`AuthorizationRequired`, `Authorizing`, `Authorized` — exhaustively over all
six `PaymentStatus` variants. -/
theorem C1_is_in_terminal_state_iff (p : Payment) :
    (p.is_in_terminal_state = true ↔
      ((∃ e af sr, p.status = .Executed e af sr) ∨
       (∃ ps e s af sr, p.status = .Settled ps e s af sr) ∨
       (∃ f fs fr af, p.status = .Failed f fs fr af))) ∧
    (p.is_in_terminal_state = false ↔
      (p.status = .AuthorizationRequired ∨
       (∃ af, p.status = .Authorizing af) ∨
       (∃ af, p.status = .Authorized af))) := by
  obtain ⟨id, am, c, u, pm, ca, md, st⟩ := p
  cases st <;> simp [Payment.is_in_terminal_state]

/-- C2: when the transport fetch-by-id reports not-found, `poll_once` (on
`CreatePaymentResponse` and on `Payment`) yields a retryable error of a
kind distinct from transport errors — never a success value and never a
silent skip. -/
theorem C2_poll_once_not_found
    (get_by_id : String → Except Error (Option Payment))
    (c : CreatePaymentResponse) (p : Payment)
    (hc : get_by_id c.id = .ok none) (hp : get_by_id p.id = .ok none) :
    poll_once_CreatePaymentResponse get_by_id c =
        .error (.Other "Payment returned 404 while polling") ∧
    poll_once_Payment get_by_id p =
        .error (.Other "Payment returned 404 while polling") ∧
    Error.isRetryable (.Other "Payment returned 404 while polling") = true ∧
    (∀ q : Payment, poll_once_CreatePaymentResponse get_by_id c ≠ .ok q) ∧
    (∀ q : Payment, poll_once_Payment get_by_id p ≠ .ok q) ∧
    (∀ s, (Error.Other "Payment returned 404 while polling") ≠ .Transport s) := by
  refine ⟨?_, ?_, rfl, ?_, ?_, ?_⟩
  · rw [poll_once_CreatePaymentResponse, hc]; rfl
  · rw [poll_once_Payment, hp]; rfl
  · intro q
    rw [poll_once_CreatePaymentResponse, hc]
    simp [transposeResult]
  · intro q
    rw [poll_once_Payment, hp]
    simp [transposeResult]
  · intro s
    simp

/-- C2 witness: a concrete not-found fetch produces the retryable 404 error
on both pollable resources. -/
theorem C2_poll_once_not_found_witness :
    poll_once_CreatePaymentResponse (fun _ => .ok none)
        sampleCreatePaymentResponse =
      .error (.Other "Payment returned 404 while polling") ∧
    poll_once_Payment (fun _ => .ok none) samplePayment =
      .error (.Other "Payment returned 404 while polling") :=
  ⟨(C2_poll_once_not_found (fun _ => .ok none) sampleCreatePaymentResponse
      samplePayment rfl rfl).1,
   (C2_poll_once_not_found (fun _ => .ok none) sampleCreatePaymentResponse
      samplePayment rfl rfl).2.1⟩

/-- C4: serializing then deserializing any value of the six discriminated
union types yields the original value, for all field combinations
including all optional fields absent. -/
theorem C4_roundtrip_unions :
    (∀ v : PaymentStatus,
        fromJson_PaymentStatus (toJson_PaymentStatus v) = some v) ∧
    (∀ v : AuthorizationFlowNextAction,
        fromJson_AuthorizationFlowNextAction
          (toJson_AuthorizationFlowNextAction v) = some v) ∧
    (∀ v : AccountIdentifier,
        fromJson_AccountIdentifier (toJson_AccountIdentifier v) = some v) ∧
    (∀ v : AdditionalInput,
        fromJson_AdditionalInput (toJson_AdditionalInput v) = some v) ∧
    (∀ v : Beneficiary,
        fromJson_Beneficiary (toJson_Beneficiary v) = some v) ∧
    (∀ v : ProviderSelection,
        fromJson_ProviderSelection (toJson_ProviderSelection v) = some v) :=
  ⟨rt_PaymentStatus, rt_AuthorizationFlowNextAction, rt_AccountIdentifier,
   rt_AdditionalInput, rt_Beneficiary, rt_ProviderSelection⟩

/-- C9: currency and country codes are encoded as uppercase strings, and
`Currency`'s `Display` output equals its serialized string. -/
theorem C9_uppercase_codes :
    toJson_Currency .Gbp = .str "GBP" ∧
    toJson_Currency .Eur = .str "EUR" ∧
    (∀ c : Currency, toJson_Currency c = .str c.display) ∧
    toJson_CountryCode .DE = .str "DE" ∧
    toJson_CountryCode .ES = .str "ES" ∧
    toJson_CountryCode .FR = .str "FR" ∧
    toJson_CountryCode .GB = .str "GB" ∧
    toJson_CountryCode .IE = .str "IE" ∧
    toJson_CountryCode .IT = .str "IT" ∧
    toJson_CountryCode .LT = .str "LT" ∧
    toJson_CountryCode .NL = .str "NL" ∧
    toJson_CountryCode .PL = .str "PL" ∧
    toJson_CountryCode .PT = .str "PT" := by
  refine ⟨rfl, rfl, ?_, rfl, rfl, rfl, rfl, rfl, rfl, rfl, rfl, rfl, rfl⟩
  intro c
  cases c <;> rfl

/-- C10: decoding a `PaymentSource` without `account_identifiers` succeeds
with the empty list, decoding without the required `id` fails, and every
successfully decoded `PaymentSource` whose payload omitted the field has
the empty list. -/
theorem C10_payment_source_defaults :
    fromJson_PaymentSource (.obj [("id", .str "ps-1")]) =
        some ⟨"ps-1", none, [], none⟩ ∧
    (∀ kvs, assocFind kvs "id" = none →
        fromJson_PaymentSource (.obj kvs) = none) ∧
    (∀ kvs ps, assocFind kvs "account_identifiers" = none →
        fromJson_PaymentSource (.obj kvs) = some ps →
        ps.account_identifiers = []) := by
  refine ⟨rfl, ?_, ?_⟩
  · intro kvs h
    unfold fromJson_PaymentSource
    rw [show asObj (Json.obj kvs) = some kvs from rfl, optBind_some,
        reqField_of_missing h, optBind_none]
  · intro kvs ps h hps
    unfold fromJson_PaymentSource at hps
    rw [show asObj (Json.obj kvs) = some kvs from rfl, optBind_some] at hps
    rcases optBind_eq_some.mp hps with ⟨id, hid, hps⟩
    rcases optBind_eq_some.mp hps with ⟨uid, huid, hps⟩
    rcases optBind_eq_some.mp hps with ⟨ais, hais, hps⟩
    rcases optBind_eq_some.mp hps with ⟨ahn, hahn, hps⟩
    cases hps
    unfold defField at hais
    rw [h] at hais
    cases hais
    rfl

/-- C10 witness: the concrete parts applied — an all-empty payload fails
(missing `id`), and the first conjunct's payload decodes with an empty
`account_identifiers`. -/
theorem C10_payment_source_defaults_witness :
    fromJson_PaymentSource (.obj []) = none ∧
    fromJson_PaymentSource (.obj [("id", .str "ps-1")]) =
      some ⟨"ps-1", none, [], none⟩ :=
  ⟨C10_payment_source_defaults.2.1 [] rfl, C10_payment_source_defaults.1⟩

theorem pollDriver_scripted_general (pre : List Payment) (t : Payment)
    (n : Nat) (hpre : ∀ p ∈ pre, p.is_in_terminal_state = false)
    (ht : t.is_in_terminal_state = true) :
    pollDriver (pre ++ [t]) n = some (t, n + pre.length + 1) := by
  induction pre generalizing n with
  | nil => simp [pollDriver, ht]
  | cons q rest ih =>
      have hq : q.is_in_terminal_state = false := hpre q (by simp)
      have hrest : ∀ p ∈ rest, p.is_in_terminal_state = false :=
        fun p hp => hpre p (by simp [hp])
      rw [List.cons_append, pollDriver.eq_def]
      simp only [hq, Bool.false_eq_true, if_false]
      rw [ih (n + 1) hrest]
      simp only [Option.some.injEq, Prod.mk.injEq, List.length_cons]
      exact ⟨trivial, by omega⟩

/-- C6: for every scripted snapshot sequence whose last element is terminal
and whose earlier elements are non-terminal, the polling driver returns
exactly that terminal snapshot and performs exactly as many fetches as the
sequence has elements. -/
theorem C6_polling_driver_scripted (pre : List Payment) (t : Payment)
    (hpre : ∀ p ∈ pre, p.is_in_terminal_state = false)
    (ht : t.is_in_terminal_state = true) :
    pollDriver (pre ++ [t]) 0 = some (t, (pre ++ [t]).length) := by
  rw [pollDriver_scripted_general pre t 0 hpre ht]
  simp [Nat.add_comm]

/-- C6 witness: a two-snapshot script (one non-terminal, then one terminal)
returns the terminal snapshot after exactly two fetches. -/
theorem C6_polling_driver_scripted_witness :
    pollDriver ([samplePayment] ++ [sampleTerminalPayment]) 0 =
      some (sampleTerminalPayment, 2) := by
  have h := C6_polling_driver_scripted [samplePayment] sampleTerminalPayment
    (by intro p hp; simp only [List.mem_singleton] at hp; subst hp; rfl)
    (by rfl)
  simpa using h

/-- C3 counterexample: the payload with a non-string `id` field is
id-bearing, yet it decodes to the `NewUser` shape (the `ExistingUser`
variant requires a string `id`, and serde's untagged fallback then accepts
the payload as `NewUser`, ignoring the unknown field), refuting the claim
that every id-bearing payload decodes as the existing-user shape. -/
theorem C3_counterexample :
    fromJson_CreatePaymentUserRequest (.obj [("id", .num 5)]) =
      some (.NewUser none none none) := rfl

/-- C3 (amended): `{"id":"u_1"}` decodes to `ExistingUser`; `{"name":"A"}`
decodes to `NewUser`; `{}` decodes to `NewUser` with all three fields
absent; and any payload bearing a string-valued `id` field decodes as the
existing-user shape. -/
theorem C3_user_request_decoding :
    fromJson_CreatePaymentUserRequest (.obj [("id", .str "u_1")]) =
        some (.ExistingUser "u_1") ∧
    fromJson_CreatePaymentUserRequest (.obj [("name", .str "A")]) =
        some (.NewUser (some "A") none none) ∧
    fromJson_CreatePaymentUserRequest (.obj []) =
        some (.NewUser none none none) ∧
    (∀ kvs s, assocFind kvs "id" = some (.str s) →
        fromJson_CreatePaymentUserRequest (.obj kvs) =
          some (.ExistingUser s)) := by
  refine ⟨rfl, rfl, rfl, ?_⟩
  intro kvs s h
  have hex : fromJson_ExistingUser (.obj kvs) = some (.ExistingUser s) := by
    unfold fromJson_ExistingUser
    rw [show asObj (Json.obj kvs) = some kvs from rfl, optBind_some,
        show reqField kvs "id" asStr = some s by simp [reqField, h, asStr],
        optBind_some]
    rfl
  unfold fromJson_CreatePaymentUserRequest
  rw [hex]

/-- C3 witness: the universally quantified conjunct applied at a concrete
id-bearing payload with extra fields. -/
theorem C3_user_request_decoding_witness :
    fromJson_CreatePaymentUserRequest
        (.obj [("name", .str "A"), ("id", .str "u_9")]) =
      some (.ExistingUser "u_9") :=
  C3_user_request_decoding.2.2.2 [("name", .str "A"), ("id", .str "u_9")]
    "u_9" rfl

/-- C5: for every tagged discriminated union, a successful decode fixes the
sibling string discriminator (`status` or `type`) to the snake_case name of
the decoded variant, and decoding fails — with an error, not a default —
whenever the discriminator is missing or its value matches no known
variant. -/
theorem C5_tagged_union_decoding :
    (∀ j (v : PaymentStatus), fromJson_PaymentStatus j = some v →
        ∃ kvs, j = .obj kvs ∧
          assocFind kvs "status" = some (.str v.statusTag)) ∧
    (∀ kvs, assocFind kvs "status" = none →
        fromJson_PaymentStatus (.obj kvs) = none) ∧
    (∀ kvs s, assocFind kvs "status" = some (.str s) →
        s ∉ ["authorization_required", "authorizing", "authorized", "executed", "settled", "failed"] →
        fromJson_PaymentStatus (.obj kvs) = none) ∧
    (∀ j (v : AuthorizationFlowNextAction), fromJson_AuthorizationFlowNextAction j = some v →
        ∃ kvs, j = .obj kvs ∧
          assocFind kvs "type" = some (.str v.typeTag)) ∧
    (∀ kvs, assocFind kvs "type" = none →
        fromJson_AuthorizationFlowNextAction (.obj kvs) = none) ∧
    (∀ kvs s, assocFind kvs "type" = some (.str s) →
        s ∉ ["provider_selection", "redirect", "form", "wait"] →
        fromJson_AuthorizationFlowNextAction (.obj kvs) = none) ∧
    (∀ j (v : AuthorizationFlowResponseStatus), fromJson_AuthorizationFlowResponseStatus j = some v →
        ∃ kvs, j = .obj kvs ∧
          assocFind kvs "status" = some (.str v.statusTag)) ∧
    (∀ kvs, assocFind kvs "status" = none →
        fromJson_AuthorizationFlowResponseStatus (.obj kvs) = none) ∧
    (∀ kvs s, assocFind kvs "status" = some (.str s) →
        s ∉ ["authorizing", "failed"] →
        fromJson_AuthorizationFlowResponseStatus (.obj kvs) = none) ∧
    (∀ j (v : AccountIdentifier), fromJson_AccountIdentifier j = some v →
        ∃ kvs, j = .obj kvs ∧
          assocFind kvs "type" = some (.str v.typeTag)) ∧
    (∀ kvs, assocFind kvs "type" = none →
        fromJson_AccountIdentifier (.obj kvs) = none) ∧
    (∀ kvs s, assocFind kvs "type" = some (.str s) →
        s ∉ ["sort_code_account_number", "iban", "bban", "nrb"] →
        fromJson_AccountIdentifier (.obj kvs) = none) ∧
    (∀ j (v : Beneficiary), fromJson_Beneficiary j = some v →
        ∃ kvs, j = .obj kvs ∧
          assocFind kvs "type" = some (.str v.typeTag)) ∧
    (∀ kvs, assocFind kvs "type" = none →
        fromJson_Beneficiary (.obj kvs) = none) ∧
    (∀ kvs s, assocFind kvs "type" = some (.str s) →
        s ∉ ["merchant_account", "external_account"] →
        fromJson_Beneficiary (.obj kvs) = none) ∧
    (∀ j (v : ProviderSelection), fromJson_ProviderSelection j = some v →
        ∃ kvs, j = .obj kvs ∧
          assocFind kvs "type" = some (.str v.typeTag)) ∧
    (∀ kvs, assocFind kvs "type" = none →
        fromJson_ProviderSelection (.obj kvs) = none) ∧
    (∀ kvs s, assocFind kvs "type" = some (.str s) →
        s ∉ ["user_selected", "preselected"] →
        fromJson_ProviderSelection (.obj kvs) = none) ∧
    (∀ j (v : PaymentMethod), fromJson_PaymentMethod j = some v →
        ∃ kvs, j = .obj kvs ∧
          assocFind kvs "type" = some (.str v.typeTag)) ∧
    (∀ kvs, assocFind kvs "type" = none →
        fromJson_PaymentMethod (.obj kvs) = none) ∧
    (∀ kvs s, assocFind kvs "type" = some (.str s) →
        s ∉ ["bank_transfer"] →
        fromJson_PaymentMethod (.obj kvs) = none) ∧
    (∀ j (v : AdditionalInput), fromJson_AdditionalInput j = some v →
        ∃ kvs, j = .obj kvs ∧
          assocFind kvs "type" = some (.str v.typeTag)) ∧
    (∀ kvs, assocFind kvs "type" = none →
        fromJson_AdditionalInput (.obj kvs) = none) ∧
    (∀ kvs s, assocFind kvs "type" = some (.str s) →
        s ∉ ["text", "select", "text_with_image"] →
        fromJson_AdditionalInput (.obj kvs) = none) ∧
    (∀ j (v : AdditionalInputImage), fromJson_AdditionalInputImage j = some v →
        ∃ kvs, j = .obj kvs ∧
          assocFind kvs "type" = some (.str v.typeTag)) ∧
    (∀ kvs, assocFind kvs "type" = none →
        fromJson_AdditionalInputImage (.obj kvs) = none) ∧
    (∀ kvs s, assocFind kvs "type" = some (.str s) →
        s ∉ ["uri", "base64"] →
        fromJson_AdditionalInputImage (.obj kvs) = none) ∧
    (∀ j (v : RedirectActionMetadata), fromJson_RedirectActionMetadata j = some v →
        ∃ kvs, j = .obj kvs ∧
          assocFind kvs "type" = some (.str v.typeTag)) ∧
    (∀ kvs, assocFind kvs "type" = none →
        fromJson_RedirectActionMetadata (.obj kvs) = none) ∧
    (∀ kvs s, assocFind kvs "type" = some (.str s) →
        s ∉ ["provider"] →
        fromJson_RedirectActionMetadata (.obj kvs) = none) :=
  ⟨fun _ _ h => fromJson_PaymentStatus_tag h,
   fromJson_PaymentStatus_missingTag,
   fromJson_PaymentStatus_unknownTag,
   fun _ _ h => fromJson_AuthorizationFlowNextAction_tag h,
   fromJson_AuthorizationFlowNextAction_missingTag,
   fromJson_AuthorizationFlowNextAction_unknownTag,
   fun _ _ h => fromJson_AuthorizationFlowResponseStatus_tag h,
   fromJson_AuthorizationFlowResponseStatus_missingTag,
   fromJson_AuthorizationFlowResponseStatus_unknownTag,
   fun _ _ h => fromJson_AccountIdentifier_tag h,
   fromJson_AccountIdentifier_missingTag,
   fromJson_AccountIdentifier_unknownTag,
   fun _ _ h => fromJson_Beneficiary_tag h,
   fromJson_Beneficiary_missingTag,
   fromJson_Beneficiary_unknownTag,
   fun _ _ h => fromJson_ProviderSelection_tag h,
   fromJson_ProviderSelection_missingTag,
   fromJson_ProviderSelection_unknownTag,
   fun _ _ h => fromJson_PaymentMethod_tag h,
   fromJson_PaymentMethod_missingTag,
   fromJson_PaymentMethod_unknownTag,
   fun _ _ h => fromJson_AdditionalInput_tag h,
   fromJson_AdditionalInput_missingTag,
   fromJson_AdditionalInput_unknownTag,
   fun _ _ h => fromJson_AdditionalInputImage_tag h,
   fromJson_AdditionalInputImage_missingTag,
   fromJson_AdditionalInputImage_unknownTag,
   fun _ _ h => fromJson_RedirectActionMetadata_tag h,
   fromJson_RedirectActionMetadata_missingTag,
   fromJson_RedirectActionMetadata_unknownTag⟩

/-- C5 witness: the missing- and unknown-discriminator conjuncts applied at
concrete payloads for the two cited unions. -/
theorem C5_tagged_union_decoding_witness :
    fromJson_PaymentStatus (.obj []) = none ∧
    fromJson_PaymentStatus
        (.obj [("status", .str "authorised")]) = none ∧
    fromJson_AuthorizationFlowNextAction (.obj [("uri", .str "u")]) = none :=
  ⟨C5_tagged_union_decoding.2.1 [] rfl,
   C5_tagged_union_decoding.2.2.1 [("status", Json.str "authorised")]
     "authorised" rfl (by decide),
   C5_tagged_union_decoding.2.2.2.2.1 [("uri", Json.str "u")] rfl⟩

/-- C7: `Authorizing` carries a mandatory `authorization_flow` (no payload
decodes or serializes without one), `Authorized` carries only an optional
flow, and `Settled` carries `payment_source`, `executed_at`, `settled_at`
plus optional flow and settlement risk. -/
theorem C7_status_payload_shapes :
    (∀ kvs, assocFind kvs "status" = some (.str "authorizing") →
        assocFind kvs "authorization_flow" = none →
        fromJson_PaymentStatus (.obj kvs) = none) ∧
    (∀ j f, fromJson_PaymentStatus j = some (.Authorizing f) →
        ∃ kvs jf, j = .obj kvs ∧
          assocFind kvs "authorization_flow" = some jf ∧
          fromJson_AuthorizationFlow jf = some f) ∧
    (∀ f, toJson_PaymentStatus (.Authorizing f) =
        .obj [("status", .str "authorizing"),
              ("authorization_flow", toJson_AuthorizationFlow f)]) ∧
    (∀ og, toJson_PaymentStatus (.Authorized og) =
        .obj [("status", .str "authorized"),
              ("authorization_flow", serOpt toJson_AuthorizationFlow og)]) ∧
    (fromJson_PaymentStatus (.obj [("status", .str "authorized")]) =
        some (.Authorized none)) ∧
    (∀ kvs, assocFind kvs "status" = some (.str "settled") →
        assocFind kvs "payment_source" = none →
        fromJson_PaymentStatus (.obj kvs) = none) ∧
    (fromJson_PaymentStatus (.obj
        [("status", .str "settled"),
         ("payment_source", .obj [("id", .str "ps-1")]),
         ("executed_at", .str "2022-01-01T00:00:00Z"),
         ("settled_at", .str "2022-01-01T00:02:00Z")]) =
      some (.Settled ⟨"ps-1", none, [], none⟩ ⟨"2022-01-01T00:00:00Z"⟩
        ⟨"2022-01-01T00:02:00Z"⟩ none none)) := by
  refine ⟨?_, ?_, fun f => rfl, fun og => rfl, rfl, ?_, rfl⟩
  · intro kvs h1 h2
    unfold fromJson_PaymentStatus
    rw [show asObj (Json.obj kvs) = some kvs from rfl, optBind_some,
        show reqField kvs "status" asStr = some "authorizing" by
          simp [reqField, h1, asStr],
        optBind_some, if_neg (by decide), if_pos rfl,
        reqField_of_missing h2, optBind_none]
  · intro j f h
    unfold fromJson_PaymentStatus at h
    rcases hobj : asObj j with _ | kvs <;> rw [hobj] at h
    · rw [optBind_none] at h; exact absurd h (by simp)
    rw [optBind_some] at h
    rcases htag : reqField kvs "status" asStr with _ | tag <;> rw [htag] at h
    · rw [optBind_none] at h; exact absurd h (by simp)
    rw [optBind_some] at h
    split at h
    · exact absurd h (by simp)
    split at h
    · rcases optBind_eq_some.mp h with ⟨g, hg, hpure⟩
      obtain rfl : g = f := by simpa using hpure
      obtain ⟨jf, hjf, hde⟩ := reqField_eq_some.mp hg
      exact ⟨kvs, jf, asObj_eq_some.mp hobj, hjf, hde⟩
    split at h
    · rcases optBind_eq_some.mp h with ⟨a0, ha0, h⟩
      exact absurd h (by simp)
    split at h
    · rcases optBind_eq_some.mp h with ⟨a0, ha0, h⟩
      rcases optBind_eq_some.mp h with ⟨a1, ha1, h⟩
      rcases optBind_eq_some.mp h with ⟨a2, ha2, h⟩
      exact absurd h (by simp)
    split at h
    · rcases optBind_eq_some.mp h with ⟨a0, ha0, h⟩
      rcases optBind_eq_some.mp h with ⟨a1, ha1, h⟩
      rcases optBind_eq_some.mp h with ⟨a2, ha2, h⟩
      rcases optBind_eq_some.mp h with ⟨a3, ha3, h⟩
      rcases optBind_eq_some.mp h with ⟨a4, ha4, h⟩
      exact absurd h (by simp)
    split at h
    · rcases optBind_eq_some.mp h with ⟨a0, ha0, h⟩
      rcases optBind_eq_some.mp h with ⟨a1, ha1, h⟩
      rcases optBind_eq_some.mp h with ⟨a2, ha2, h⟩
      rcases optBind_eq_some.mp h with ⟨a3, ha3, h⟩
      exact absurd h (by simp)
    · exact absurd h (by simp)
  · intro kvs h1 h2
    unfold fromJson_PaymentStatus
    rw [show asObj (Json.obj kvs) = some kvs from rfl, optBind_some,
        show reqField kvs "status" asStr = some "settled" by
          simp [reqField, h1, asStr],
        optBind_some, if_neg (by decide), if_neg (by decide),
        if_neg (by decide), if_neg (by decide), if_pos rfl,
        reqField_of_missing h2, optBind_none]

/-- C7 witness: the hypothesis-bearing conjuncts applied at concrete
payloads — an `authorizing` payload without a flow fails, a decoded
`Authorizing` value exhibits its flow field, and a `settled` payload
without a `payment_source` fails. -/
theorem C7_status_payload_shapes_witness :
    fromJson_PaymentStatus (.obj [("status", .str "authorizing")]) = none ∧
    (∃ kvs jf,
      (Json.obj [("status", Json.str "authorizing"),
                 ("authorization_flow", Json.obj [("actions", Json.null),
                                                  ("configuration", Json.null)])]) =
        .obj kvs ∧
      assocFind kvs "authorization_flow" = some jf ∧
      fromJson_AuthorizationFlow jf = some ⟨none, none⟩) ∧
    fromJson_PaymentStatus (.obj [("status", .str "settled")]) = none :=
  ⟨C7_status_payload_shapes.1 [("status", Json.str "authorizing")] rfl rfl,
   C7_status_payload_shapes.2.1
     (Json.obj [("status", Json.str "authorizing"),
                ("authorization_flow", Json.obj [("actions", Json.null),
                                                 ("configuration", Json.null)])])
     ⟨none, none⟩ rfl,
   C7_status_payload_shapes.2.2.2.2.2.1 [("status", Json.str "settled")] rfl rfl⟩

/-- C8: a serialized `Payment` carries its `status` discriminator and the
status-variant fields as sibling keys of the payment object itself (the
discriminator maps to the tag string, not to a nested object), and every
flow-action submission response likewise merges its `status` fields into
the same JSON object as its `authorization_flow` field. -/
theorem C8_flatten_status :
    (∀ p : Payment, ∃ kvs,
        toJson_Payment p = .obj kvs ∧
        toJson_PaymentStatus p.status = .obj (paymentStatusFields p.status) ∧
        paymentStatusFields p.status ⊆ kvs ∧
        assocFind kvs "status" = some (.str p.status.statusTag)) ∧
    (∀ r : StartAuthorizationFlowResponse, ∃ kvs,
        toJson_StartAuthorizationFlowResponse r = .obj kvs ∧
        toJson_AuthorizationFlowResponseStatus r.status =
          .obj (authorizationFlowResponseStatusFields r.status) ∧
        authorizationFlowResponseStatusFields r.status ⊆ kvs ∧
        assocFind kvs "status" = some (.str r.status.statusTag) ∧
        assocFind kvs "authorization_flow" =
          some (serOpt toJson_AuthorizationFlow r.authorization_flow)) ∧
    (∀ r : SubmitProviderSelectionActionResponse, ∃ kvs,
        toJson_SubmitProviderSelectionActionResponse r = .obj kvs ∧
        toJson_AuthorizationFlowResponseStatus r.status =
          .obj (authorizationFlowResponseStatusFields r.status) ∧
        authorizationFlowResponseStatusFields r.status ⊆ kvs ∧
        assocFind kvs "status" = some (.str r.status.statusTag) ∧
        assocFind kvs "authorization_flow" =
          some (serOpt toJson_AuthorizationFlow r.authorization_flow)) ∧
    (∀ r : SubmitFormActionResponse, ∃ kvs,
        toJson_SubmitFormActionResponse r = .obj kvs ∧
        toJson_AuthorizationFlowResponseStatus r.status =
          .obj (authorizationFlowResponseStatusFields r.status) ∧
        authorizationFlowResponseStatusFields r.status ⊆ kvs ∧
        assocFind kvs "status" = some (.str r.status.statusTag) ∧
        assocFind kvs "authorization_flow" =
          some (serOpt toJson_AuthorizationFlow r.authorization_flow)) := by
  refine ⟨?_, ?_, ?_, ?_⟩
  · intro p
    obtain ⟨id, am, c, u, pm, ca, md, st⟩ := p
    refine ⟨_, rfl, rfl, List.subset_append_right _ _, ?_⟩
    cases st <;> rfl
  · intro r
    obtain ⟨af, st⟩ := r
    refine ⟨_, rfl, rfl, List.subset_append_right _ _, ?_, rfl⟩
    cases st <;> rfl
  · intro r
    obtain ⟨af, st⟩ := r
    refine ⟨_, rfl, rfl, List.subset_append_right _ _, ?_, rfl⟩
    cases st <;> rfl
  · intro r
    obtain ⟨af, st⟩ := r
    refine ⟨_, rfl, rfl, List.subset_append_right _ _, ?_, rfl⟩
    cases st <;> rfl
